import Mathlib

/-!
Shallow embedding of `src/rfcomm.c` (BlueALSA RFCOMM / HFP session engine).

The embedding models the message reassembler (`rfcomm_read_at`), the handler
table and dispatch (`rfcomm_get_callback` and the dispatch prologue of
`rfcomm_thread`), every AT handler callback, and the SLC state-machine block of
`rfcomm_thread`, over explicit state records.  Machine strings are `List Char`,
machine integers are `Nat`/`Int` with explicit `% 2^w` where unsigned wrap-around
matters.  Socket reads are modelled by a queue of read results; socket writes,
D-Bus notifications and transport signals are collected in an output event list.

Declarations whose C counterpart lives in a header or translation unit that is
not part of this repository snapshot (hfp.h, at.h, rfcomm.h, the message codec)
are marked `Modelled from the spec:` and follow the specification's wording.
-/

set_option autoImplicit false

namespace Rfcomm

/-! ### Errno values (errno.h) -/

def EINTR : Nat := 4
def EAGAIN : Nat := 11
def EBADMSG : Nat := 74
def ENOTSUP : Nat := 95
def ECONNRESET : Nat := 104
def ETIMEDOUT : Nat := 110

/-- Result of a fallible C call: `.ok` for a `0` return, `.err e` for a `-1`
return with `errno = e`. -/
inductive CResult (α : Type) where
  | ok (a : α)
  | err (e : Nat)
deriving DecidableEq

/-! ### AT message data model

Modelled from the spec: the message type `{kind, command, value}` with kinds
{command-set, command-get, command-test, response, raw} (`struct bt_at` and
`enum bt_at_type` live in at.h, which is not part of this snapshot). -/

inductive AtType where
  | cmd_get
  | cmd_set
  | cmd_test
  | resp
  | raw
deriving DecidableEq

structure BtAt where
  type : AtType
  command : List Char
  value : List Char
deriving DecidableEq

/-! ### Message reassembler (`struct at_reader`, `rfcomm_read_at`) -/

/-- Reassembler state: `next` is the cursor to the next unparsed message within
the read buffer (`NULL` = `none`).  The buffer content itself is carried inside
the cursor / the read results, so the record only keeps the cursor. -/
structure AtReader where
  next : Option (List Char)
deriving DecidableEq

/-- One outcome of the `read(2)` call on the RFCOMM socket: either a chunk of
bytes (the empty chunk models a zero-length read, i.e. peer shutdown), or a
failure with an errno. -/
inductive SockRead where
  | bytes (s : List Char)
  | rfail (e : Nat)
deriving DecidableEq

/-- The tail of `rfcomm_read_at`: parse the buffered message `msg`.  On codec
failure the cursor is set to the (still unparsed) message and the call fails
with `EBADMSG`; on success the cursor becomes the non-empty remainder, or is
cleared when the remainder is empty (`reader->next = tmp[0] != '\0' ? tmp :
NULL`). -/
def parseBuffered (parse : List Char → Option (BtAt × List Char))
    (msg : List Char) (q : List SockRead) :
    CResult BtAt × List SockRead × AtReader :=
  match parse msg with
  | none => (.err EBADMSG, q, ⟨some msg⟩)
  | some (a, tmp) => (.ok a, q, ⟨if tmp = [] then none else some tmp⟩)

/-- `rfcomm_read_at`.  `parse` is the external message codec (spec §6:
`parse(bytes) → (Message, remaining bytes) | error`; `at_parse` in at.c is not
part of this snapshot).  The socket is modelled by the queue `q` of pending
read results; a read result is consumed only when the cursor is clear.  An
`EINTR` read failure is transparently retried (`goto retry`); a zero-length
read fails with `ECONNRESET`.  An empty queue (no data would be available to a
blocking read) is modelled as an `EAGAIN` failure; no theorem below depends on
that branch. -/
def rfcomm_read_at (parse : List Char → Option (BtAt × List Char)) :
    List SockRead → AtReader → CResult BtAt × List SockRead × AtReader
  | q, reader =>
    match reader.next with
    | some msg => parseBuffered parse msg q
    | none =>
      match q with
      | [] => (.err EAGAIN, [], reader)
      | .rfail e :: rest =>
        if e = EINTR then rfcomm_read_at parse rest reader
        else (.err e, rest, reader)
      | .bytes s :: rest =>
        if s = [] then (.err ECONNRESET, rest, reader)
        else parseBuffered parse s rest

/-- Outcome of the socket-read arm of the event loop. -/
inductive LoopRead where
  | msg (a : BtAt)
  | drop
  | fatal (e : Nat)
deriving DecidableEq

/-- The socket-read arm of `rfcomm_thread` (the `read:` label): call
`rfcomm_read_at`; on `EBADMSG` log, clear the cursor (`reader.next = NULL`) and
continue (`.drop`); any other failure is handed to the I/O-error path
(`.fatal`). -/
def loopReadStep (parse : List Char → Option (BtAt × List Char))
    (q : List SockRead) (reader : AtReader) :
    LoopRead × List SockRead × AtReader :=
  match rfcomm_read_at parse q reader with
  | (.ok a, q', r') => (.msg a, q', r')
  | (.err e, q', r') =>
    if e = EBADMSG then (.drop, q', ⟨none⟩) else (.fatal e, q', r')

/-- Iterate `rfcomm_read_at` `n` times, collecting the results and threading
the socket queue and the reader state. -/
def runReads (parse : List Char → Option (BtAt × List Char)) :
    Nat → List SockRead → AtReader →
    List (CResult BtAt) × List SockRead × AtReader
  | 0, q, r => ([], q, r)
  | n + 1, q, r =>
    let step := rfcomm_read_at parse q r
    let rest := runReads parse n step.2.1 step.2.2
    (step.1 :: rest.1, rest.2.1, rest.2.2)

/-- `ParsesInto parse s as`: the byte string `s` consists of exactly the
well-formed concatenated messages `as`; the codec parses each in turn, leaving
exactly the remaining concatenation behind. -/
inductive ParsesInto (parse : List Char → Option (BtAt × List Char)) :
    List Char → List BtAt → Prop
  | nil : ParsesInto parse [] []
  | cons {s rem : List Char} {a : BtAt} {as : List BtAt} :
      s ≠ [] → parse s = some (a, rem) → ParsesInto parse rem as →
      ParsesInto parse s (a :: as)

/-! ### HFP constants

Modelled from the spec: the SLC states are a strictly-ordered enumeration
(spec §4.3: `DISCONNECTED → BRSF/BAC negotiation → INDICATOR_CAPS_TEST →
INDICATOR_CAPS_TEST_OK → INDICATOR_CAPS_GET → INDICATOR_CAPS_GET_OK →
EVENT_REPORTING_SET_OK → SLC_CONNECTED → [CODEC_SELECT → CODEC_SELECT_OK →
CODEC_CONNECTED] → CONNECTED`); the C enum `hfp_state` lives in hfp.h, which
is not part of this snapshot.  States are bare `Nat`s, as in C, so that
`c->state + 1` and `<` translate directly. -/

def HFP_DISCONNECTED : Nat := 0
def HFP_SLC_BRSF_SET : Nat := 1
def HFP_SLC_BRSF_SET_OK : Nat := 2
def HFP_SLC_BAC_SET_OK : Nat := 3
def HFP_SLC_CIND_TEST : Nat := 4
def HFP_SLC_CIND_TEST_OK : Nat := 5
def HFP_SLC_CIND_GET : Nat := 6
def HFP_SLC_CIND_GET_OK : Nat := 7
def HFP_SLC_CMER_SET_OK : Nat := 8
def HFP_SLC_CONNECTED : Nat := 9
def HFP_CC_BCS_SET : Nat := 10
def HFP_CC_BCS_SET_OK : Nat := 11
def HFP_CC_CONNECTED : Nat := 12
def HFP_CONNECTED : Nat := 13

/-- Modelled from the spec: the narrowband (CVSD) codec id; the spec and the
claims fix it as codec `1` (hfp.h is not part of this snapshot). -/
def HFP_CODEC_CVSD : Nat := 1

/-- Modelled from the spec: the wideband (mSBC) codec id, codec `2`. -/
def HFP_CODEC_MSBC : Nat := 2

/-- Modelled from the spec: HF feature-bitmask bit advertising codec
negotiation support (`HFP_HF_FEAT_CODEC` in hfp.h, not in this snapshot); only
its identity as a fixed bit matters to the engine. -/
def HFP_HF_FEAT_CODEC : Nat := 128

/-- Modelled from the spec: AG feature-bitmask bit advertising codec
negotiation support (`HFP_AG_FEAT_CODEC` in hfp.h, not in this snapshot). -/
def HFP_AG_FEAT_CODEC : Nat := 512

/-- Modelled from the spec: the fixed SLC handshake retry ceiling
(`RFCOMM_SLC_RETRIES` in rfcomm.h, not in this snapshot; the spec fixes only
that it is a constant ceiling). -/
def RFCOMM_SLC_RETRIES : Nat := 3

/-- Modelled from the spec: the bounded SLC wait timeout in milliseconds
(`RFCOMM_SLC_TIMEOUT` in rfcomm.h, not in this snapshot). -/
def RFCOMM_SLC_TIMEOUT : Nat := 1000

/-- Modelled from the spec: the process-wide configured HF feature bitmask
(`config.hfp.features_rfcomm_hf`, external configuration); its value is
irrelevant to every claim below. -/
def config_hfp_features_rfcomm_hf : Nat := 0

/-- Modelled from the spec: the process-wide configured AG feature bitmask
(`config.hfp.features_rfcomm_ag`, external configuration). -/
def config_hfp_features_rfcomm_ag : Nat := 0

/-! Modelled from the spec: the notification contract `notify(transport,
changed-aspects)` with aspects drawn from {battery, volume, sampling, codec}
(`BA_DBUS_TRANSPORT_UPDATE_*` in bluealsa-dbus.h, not in this snapshot);
modelled as distinct mask bits. -/

def BA_DBUS_TRANSPORT_UPDATE_BATTERY : Nat := 1
def BA_DBUS_TRANSPORT_UPDATE_VOLUME : Nat := 2
def BA_DBUS_TRANSPORT_UPDATE_SAMPLING : Nat := 4
def BA_DBUS_TRANSPORT_UPDATE_CODEC : Nat := 8

/-! ### C string helpers (string.h / stdlib.h semantics on `List Char`) -/

/-- C `isspace` for the default locale. -/
def isCSpace (c : Char) : Bool :=
  c = ' ' ∨ c = '\t' ∨ c = '\n' ∨ c = Char.ofNat 11 ∨ c = Char.ofNat 12 ∨ c = '\r'

/-- Drop leading C whitespace. -/
def skipSpaces : List Char → List Char
  | [] => []
  | c :: cs => if isCSpace c then skipSpaces cs else c :: cs

/-- Accumulate a decimal digit run, stopping at the first non-digit. -/
def atoiDigits : List Char → Nat → Nat
  | [], acc => acc
  | c :: cs, acc =>
    if c.isDigit then atoiDigits cs (acc * 10 + (c.toNat - '0'.toNat)) else acc

/-- C `atoi`: optional whitespace, optional sign, leading digit run (empty run
gives 0).  `int` overflow is undefined behaviour in C and modelled as exact
integer arithmetic. -/
def atoiL (s : List Char) : Int :=
  match skipSpaces s with
  | '-' :: rest => -(atoiDigits rest 0 : Int)
  | '+' :: rest => (atoiDigits rest 0 : Int)
  | rest => (atoiDigits rest 0 : Int)

/-- Greedy digit run with remainder. -/
def takeDigitsAux : List Char → Nat → Nat × List Char
  | [], acc => (acc, [])
  | c :: cs, acc =>
    if c.isDigit then takeDigitsAux cs (acc * 10 + (c.toNat - '0'.toNat))
    else (acc, c :: cs)

/-- `scanf` `%u` conversion: skip whitespace, then at least one decimal digit
(the sign forms accepted by `strtoul` are not used by any input here). -/
def scanNat (s : List Char) : Option (Nat × List Char) :=
  match skipSpaces s with
  | [] => none
  | c :: cs => if c.isDigit then some (takeDigitsAux (c :: cs) 0) else none

/-- `sscanf(value, "%u,%u", &index, &value) == 2`
(`rfcomm_handler_ciev_resp_cb`): both conversions store `unsigned int`, hence
the `% 2^32`. -/
def sscanf_uu (s : List Char) : Option (Nat × Nat) :=
  match scanNat s with
  | none => none
  | some (a, r) =>
    match r with
    | ',' :: r2 =>
      match scanNat r2 with
      | none => none
      | some (b, _) => some (a % 2 ^ 32, b % 2 ^ 32)
    | _ => none

/-- Hexadecimal digit value. -/
def hexVal (c : Char) : Option Nat :=
  if c.isDigit then some (c.toNat - '0'.toNat)
  else if 'a' ≤ c ∧ c ≤ 'f' then some (c.toNat - 'a'.toNat + 10)
  else if 'A' ≤ c ∧ c ≤ 'F' then some (c.toNat - 'A'.toNat + 10)
  else none

/-- Greedy hexadecimal digit run with remainder. -/
def takeHexAux : List Char → Nat → Nat × List Char
  | [], acc => (acc, [])
  | c :: cs, acc =>
    match hexVal c with
    | some v => takeHexAux cs (acc * 16 + v)
    | none => (acc, c :: cs)

/-- `scanf` `%x` conversion: skip whitespace, then at least one hex digit. -/
def scanHex (s : List Char) : Option (Nat × List Char) :=
  match skipSpaces s with
  | [] => none
  | c :: cs =>
    match hexVal c with
    | some _ => some (takeHexAux (c :: cs) 0)
    | none => none

/-- `sscanf(value, "%x-%x-%u,%u", ...) == 4` (`rfcomm_handler_xapl_set_cb`). -/
def scanXapl (s : List Char) : Option (Nat × Nat × Nat × Nat) :=
  match scanHex s with
  | none => none
  | some (v, r) =>
    match r with
    | '-' :: r =>
      match scanHex r with
      | none => none
      | some (p, r) =>
        match r with
        | '-' :: r =>
          match scanNat r with
          | none => none
          | some (ver, r) =>
            match r with
            | ',' :: r =>
              match scanNat r with
              | none => none
              | some (f, _) =>
                some (v % 2 ^ 32, p % 2 ^ 32, ver % 2 ^ 32, f % 2 ^ 32)
            | _ => none
        | _ => none
    | _ => none

/-- `strchr(tmp, ',')` followed by `tmp + 1`: the remainder after the first
comma, or `none` when there is no comma. -/
def dropToComma : List Char → Option (List Char)
  | [] => none
  | c :: cs => if c = ',' then some cs else dropToComma cs

/-- `strsep(&ptr, ",")`: the token up to the first comma, and the rest after
the comma (`none` models `ptr == NULL` after the last token). -/
def strsepComma : List Char → List Char × Option (List Char)
  | [] => ([], none)
  | c :: cs =>
    if c = ',' then ([], some cs)
    else
      let r := strsepComma cs
      (c :: r.1, r.2)

/-- The `do { tmp += 1; if (atoi(tmp) == HFP_CODEC_MSBC) ... } while
((tmp = strchr(tmp, ',')))` scan of `rfcomm_handler_bac_set_cb`, with fuel
bounding the comma hops (each hop consumes at least one character). -/
def bacScanAux : Nat → List Char → Bool
  | 0, _ => false
  | fuel + 1, s =>
    (atoiL s = (HFP_CODEC_MSBC : Int)) ||
      match dropToComma s with
      | none => false
      | some r => bacScanAux fuel r

/-- Whether the `AT+BAC` value lists the mSBC codec id. -/
def bacHasMsbc (s : List Char) : Bool := bacScanAux (s.length + 1) s

/-- Conversion of a C `int` value to the `unsigned`/two's-complement bit image
used for feature-bitmask storage and tests. -/
def intToU32 (i : Int) : Nat := (i % 2 ^ 32).toNat

/-! ### Connection and transport state -/

/-- Semantic indicator kinds.  Modelled from the spec: the `enum hfp_ind`
indexing of `hfp_inds` lives in hfp.h (not in this snapshot); the spec lists
call, call-setup, service, signal, roam, battery-charge, call-held, plus the
null kind that unknown names map to. -/
inductive HfpInd where
  | null
  | service
  | call
  | callsetup
  | callheld
  | signal
  | roam
  | battchg
deriving DecidableEq

/-- Position of an indicator kind in the `hfp_inds` value array. -/
def indIdx : HfpInd → Nat
  | .null => 0
  | .service => 1
  | .call => 2
  | .callsetup => 3
  | .callheld => 4
  | .signal => 5
  | .roam => 6
  | .battchg => 7

/-- Identifier of an AT handler callback function (`rfcomm_callback` values
are compared and stored, never reflected on, so an enumeration suffices). -/
inductive RfcommCb where
  | resp_ok
  | resp_bcs_ok
  | cind_test
  | cind_get
  | cind_resp_test
  | cind_resp_get
  | cmer_set
  | ciev_resp
  | bia_set
  | brsf_set
  | brsf_resp
  | vgm_set
  | vgs_set
  | btrh_get
  | bcs_set
  | bcs_resp
  | bac_set
  | iphoneaccev_set
  | xapl_set
deriving DecidableEq

/-- `struct rfcomm_handler`: expected message type, expected command, and the
callback. -/
structure RfcommHandler where
  type : AtType
  command : List Char
  callback : RfcommCb
deriving DecidableEq

/-- Shared transport / device state touched by the engine.  Flattened image of
the `ba_transport` / `ba_device` fields used by rfcomm.c (those structs live
outside this snapshot; spec §6 fixes the field set): HF/AG feature bitmask,
selected codec (`sco->type.codec`), gains (`sco->sco.{mic,spk}_gain`), the
indicator value array (`rfcomm.hfp_inds`), device battery level and Apple
accessory (`xapl`) metadata. -/
structure Transport where
  hfp_features : Nat
  codec : Nat
  mic_gain : Int
  spk_gain : Int
  hfp_inds : List Nat
  battery_level : Int
  xapl_vendor_id : Nat
  xapl_product_id : Nat
  xapl_version : Nat
  xapl_features : Nat
  accev_docked : Int
deriving DecidableEq

/-- `struct rfcomm_conn`: the state machine record owned by one session. -/
structure RfcommConn where
  state : Nat
  state_prev : Nat
  retries : Nat
  handler : Option RfcommHandler
  msbc : Bool
  mic_gain : Int
  spk_gain : Int
  hfp_ind_map : List HfpInd
deriving DecidableEq

/-- Externally visible effects of one slice of the engine: an AT write to the
socket (`rfcomm_write_at fd type command value` with `NULL` as `none`), a
D-Bus notification (`bluealsa_dbus_transport_update` with an aspect mask), a
liveness signal to the SCO transport (`ba_transport_send_signal(...,
TRANSPORT_PING)`), or a verbatim forward of a message to the external AT
handler descriptor. -/
inductive OutEvent where
  | write (type : AtType) (command : Option (List Char)) (value : Option (List Char))
  | dbusUpdate (mask : Nat)
  | signalPing
  | fwd (a : BtAt)
deriving DecidableEq

/-- `if (c->state < s) rfcomm_set_hfp_state(c, s)`. -/
def stateMax (cur s : Nat) : Nat := if cur < s then s else cur

/-- Outcome of one handler callback: updated connection and transport state
plus the emitted effects, or a `-1` return with an errno.  In this model the
socket writes themselves always succeed (`rfcomm_write_at` failure is an I/O
condition of the environment, outside every claim below). -/
abbrev CbResult := CResult (RfcommConn × Transport × List OutEvent)

/-! ### Handler callbacks (`rfcomm_handler_*_cb`) -/

/-- `rfcomm_handler_resp_ok_cb`: `"OK"` advances the SLC state by one;
`"ERROR"` fails with `ENOTSUP`; anything else is accepted with no effect. -/
def rfcomm_handler_resp_ok_cb (c : RfcommConn) (t : Transport) (a : BtAt) :
    CbResult :=
  if a.value = "OK".data then .ok ({ c with state := c.state + 1 }, t, [])
  else if a.value = "ERROR".data then .err ENOTSUP
  else .ok (c, t, [])

/-- The indicator-capability string sent by `rfcomm_handler_cind_test_cb`. -/
def cindTestValue : List Char :=
  ("(\"call\",(0,1))"
    ++ ",(\"callsetup\",(0-3))"
    ++ ",(\"service\",(0-1))"
    ++ ",(\"signal\",(0-5))"
    ++ ",(\"roam\",(0-1))"
    ++ ",(\"battchg\",(0-5))"
    ++ ",(\"callheld\",(0-2))").data

/-- `rfcomm_handler_cind_test_cb`. -/
def rfcomm_handler_cind_test_cb (c : RfcommConn) (t : Transport) (_a : BtAt) :
    CbResult :=
  .ok ({ c with state := stateMax c.state HFP_SLC_CIND_TEST_OK }, t,
    [.write .resp (some "+CIND".data) (some cindTestValue),
     .write .resp none (some "OK".data)])

/-- `rfcomm_handler_cind_get_cb`. -/
def rfcomm_handler_cind_get_cb (c : RfcommConn) (t : Transport) (_a : BtAt) :
    CbResult :=
  .ok ({ c with state := stateMax c.state HFP_SLC_CIND_GET_OK }, t,
    [.write .resp (some "+CIND".data) (some "0,0,0,0,0,0,0".data),
     .write .resp none (some "OK".data)])

/-- Quoted-substring extractor: the maximal runs of characters between
consecutive pairs of double quotes, an unterminated final quote yielding
nothing. -/
def extractQuoted : List Char → Bool → List Char → List (List Char)
  | [], _, _ => []
  | c :: cs, false, acc =>
    if c = '"' then extractQuoted cs true [] else extractQuoted cs false acc
  | c :: cs, true, acc =>
    if c = '"' then acc.reverse :: extractQuoted cs false []
    else extractQuoted cs true (c :: acc)

/-- Indicator name to semantic kind; unknown names map to the null kind. -/
def indFromName (n : List Char) : HfpInd :=
  if n = "service".data then .service
  else if n = "call".data then .call
  else if n = "callsetup".data then .callsetup
  else if n = "callheld".data then .callheld
  else if n = "signal".data then .signal
  else if n = "roam".data then .roam
  else if n = "battchg".data then .battchg
  else .null

/-- Modelled from the spec: `at_parse_cind` of the external message codec
(at.c, not in this snapshot).  The spec fixes its effect: it builds the
indicator map (wire order to semantic kind) from the AG's advertised indicator
list, the names being the quoted strings of the `+CIND` test response; the map
array holds 20 entries. -/
def at_parse_cind (v : List Char) : List HfpInd :=
  ((extractQuoted v false []).map indFromName).take 20

/-- `rfcomm_handler_cind_resp_test_cb`: populate the indicator map from the
`+CIND` test response (a codec parse failure is only logged). -/
def rfcomm_handler_cind_resp_test_cb (c : RfcommConn) (t : Transport)
    (a : BtAt) : CbResult :=
  .ok ({ c with
          hfp_ind_map := at_parse_cind a.value,
          state := stateMax (c : RfcommConn).state HFP_SLC_CIND_TEST }, t, [])

/-- The `for (i = 0; i < ARRAYSIZE(c->hfp_ind_map); i++)` loop of
`rfcomm_handler_cind_resp_get_cb`: for each map slot in order, store
`atoi(tmp)` (a `uint8_t` array element, hence `% 256`) into the indicator's
value slot; for the battery-charge indicator also derive the device battery
level as `atoi(tmp) * 100 / 5` and fire a battery notification; stop at the
first chunk with no following comma. -/
def cindGetLoop : List HfpInd → List Char → Transport →
    Transport × List OutEvent
  | [], _, t => (t, [])
  | ind :: rest, tmp, t =>
    let v := atoiL tmp
    let t := { t with hfp_inds := t.hfp_inds.set (indIdx ind) (v % 256).toNat }
    let step :=
      if ind = .battchg then
        ({ t with battery_level := v * 100 / 5 },
          [OutEvent.dbusUpdate BA_DBUS_TRANSPORT_UPDATE_BATTERY])
      else (t, ([] : List OutEvent))
    match dropToComma tmp with
    | none => step
    | some tmp' =>
      let next := cindGetLoop rest tmp' step.1
      (next.1, step.2 ++ next.2)

/-- `rfcomm_handler_cind_resp_get_cb`. -/
def rfcomm_handler_cind_resp_get_cb (c : RfcommConn) (t : Transport)
    (a : BtAt) : CbResult :=
  let r := cindGetLoop c.hfp_ind_map a.value t
  .ok ({ c with state := stateMax c.state HFP_SLC_CIND_GET }, r.1, r.2)

/-- `rfcomm_handler_cmer_set_cb`. -/
def rfcomm_handler_cmer_set_cb (c : RfcommConn) (t : Transport) (_a : BtAt) :
    CbResult :=
  .ok ({ c with state := stateMax c.state HFP_SLC_CMER_SET_OK }, t,
    [.write .resp none (some "OK".data)])

/-- `rfcomm_handler_ciev_resp_cb`: on a `"%u,%u"` match, store the value (a
`uint8_t` slot, hence `% 256`) under the indicator mapped at wire index
`index`, ping the SCO transport for call / call-setup changes, and derive the
battery level (`value * 100 / 5`, computed in `unsigned int`) for
battery-charge changes.  `index - 1` is `Nat` subtraction and the map read is
total with `.null` default where the C array access at `index - 1` would be
out of bounds. -/
def rfcomm_handler_ciev_resp_cb (c : RfcommConn) (t : Transport) (a : BtAt) :
    CbResult :=
  match sscanf_uu a.value with
  | none => .ok (c, t, [])
  | some (index, value) =>
    let ind := c.hfp_ind_map.getD (index - 1) .null
    let t := { t with hfp_inds := t.hfp_inds.set (indIdx ind) (value % 256) }
    match ind with
    | .call => .ok (c, t, [.signalPing])
    | .callsetup => .ok (c, t, [.signalPing])
    | .battchg =>
      .ok (c,
        { t with battery_level := ((value * 100) % 2 ^ 32 : Nat) / 5 },
        [.dbusUpdate BA_DBUS_TRANSPORT_UPDATE_BATTERY])
    | _ => .ok (c, t, [])

/-- `rfcomm_handler_bia_set_cb`: always acknowledge. -/
def rfcomm_handler_bia_set_cb (c : RfcommConn) (t : Transport) (_a : BtAt) :
    CbResult :=
  .ok (c, t, [.write .resp none (some "OK".data)])

/-- `rfcomm_handler_brsf_set_cb` (AG side): record the HF's features, force
CVSD when the HF lacks codec negotiation, answer `+BRSF` with the configured
AG features and `OK`, and advance to at least `BRSF_SET_OK`. -/
def rfcomm_handler_brsf_set_cb (c : RfcommConn) (t : Transport) (a : BtAt) :
    CbResult :=
  let t := { t with hfp_features := intToU32 (atoiL a.value) }
  let t :=
    if t.hfp_features &&& HFP_HF_FEAT_CODEC = 0 then
      { t with codec := HFP_CODEC_CVSD }
    else t
  .ok ({ c with state := stateMax c.state HFP_SLC_BRSF_SET_OK }, t,
    [.write .resp (some "+BRSF".data)
        (some (Nat.toDigits 10 config_hfp_features_rfcomm_ag)),
     .write .resp none (some "OK".data)])

/-- `rfcomm_handler_brsf_resp_cb` (HF side). -/
def rfcomm_handler_brsf_resp_cb (c : RfcommConn) (t : Transport) (a : BtAt) :
    CbResult :=
  let t := { t with hfp_features := intToU32 (atoiL a.value) }
  let t :=
    if t.hfp_features &&& HFP_AG_FEAT_CODEC = 0 then
      { t with codec := HFP_CODEC_CVSD }
    else t
  .ok ({ c with state := stateMax c.state HFP_SLC_BRSF_SET }, t, [])

/-- `rfcomm_handler_vgm_set_cb`. -/
def rfcomm_handler_vgm_set_cb (c : RfcommConn) (t : Transport) (a : BtAt) :
    CbResult :=
  let g := atoiL a.value
  .ok ({ c with mic_gain := g }, { t with mic_gain := g },
    [.write .resp none (some "OK".data),
     .dbusUpdate BA_DBUS_TRANSPORT_UPDATE_VOLUME])

/-- `rfcomm_handler_vgs_set_cb`. -/
def rfcomm_handler_vgs_set_cb (c : RfcommConn) (t : Transport) (a : BtAt) :
    CbResult :=
  let g := atoiL a.value
  .ok ({ c with spk_gain := g }, { t with spk_gain := g },
    [.write .resp none (some "OK".data),
     .dbusUpdate BA_DBUS_TRANSPORT_UPDATE_VOLUME])

/-- `rfcomm_handler_btrh_get_cb`: acknowledge without reporting status. -/
def rfcomm_handler_btrh_get_cb (c : RfcommConn) (t : Transport) (_a : BtAt) :
    CbResult :=
  .ok (c, t, [.write .resp none (some "OK".data)])

/-- `rfcomm_handler_bcs_set_cb` (AG side): a codec echo that does not match
the previously offered codec is answered `ERROR` with no state change; a
matching echo is acknowledged and advances to at least `BCS_SET_OK`. -/
def rfcomm_handler_bcs_set_cb (c : RfcommConn) (t : Transport) (a : BtAt) :
    CbResult :=
  if (t.codec : Int) ≠ atoiL a.value then
    .ok (c, t, [.write .resp none (some "ERROR".data)])
  else
    .ok ({ c with state := stateMax c.state HFP_CC_BCS_SET_OK }, t,
      [.write .resp none (some "OK".data)])

/-- `rfcomm_handler_resp_bcs_ok_cb`: the plain OK/ERROR handler followed (on
success) by a sampling/codec change notification. -/
def rfcomm_handler_resp_bcs_ok_cb (c : RfcommConn) (t : Transport) (a : BtAt) :
    CbResult :=
  match rfcomm_handler_resp_ok_cb c t a with
  | .err e => .err e
  | .ok (c, t, outs) =>
    .ok (c, t, outs ++
      [.dbusUpdate (BA_DBUS_TRANSPORT_UPDATE_SAMPLING |||
        BA_DBUS_TRANSPORT_UPDATE_CODEC)])

/-- The one-shot handler installed by `rfcomm_handler_bcs_resp_cb`. -/
def rfcomm_handler_resp_bcs_ok : RfcommHandler :=
  ⟨.resp, [], .resp_bcs_ok⟩

/-- `rfcomm_handler_bcs_resp_cb` (HF side): adopt the AG's codec choice, echo
it with `AT+BCS`, expect the final `OK` through the one-shot handler, and
advance to at least `BCS_SET`. -/
def rfcomm_handler_bcs_resp_cb (c : RfcommConn) (t : Transport) (a : BtAt) :
    CbResult :=
  .ok ({ c with
          handler := some rfcomm_handler_resp_bcs_ok,
          state := stateMax (c : RfcommConn).state HFP_CC_BCS_SET },
    { t with codec := intToU32 (atoiL a.value) },
    [.write .cmd_set (some "+BCS".data) (some a.value)])

/-- `rfcomm_handler_bac_set_cb` (AG side, `ENABLE_MSBC` build): remember
whether the HF's available-codec list contains mSBC, acknowledge, and advance
to at least `BAC_SET_OK`. -/
def rfcomm_handler_bac_set_cb (c : RfcommConn) (t : Transport) (a : BtAt) :
    CbResult :=
  .ok ({ c with
          msbc := c.msbc || bacHasMsbc a.value,
          state := stateMax (c : RfcommConn).state HFP_SLC_BAC_SET_OK }, t,
    [.write .resp none (some "OK".data)])

/-- The `while (count-- && ptr != NULL)` key/value walk of
`rfcomm_handler_iphoneaccev_set_cb`: key `'1'` is battery level 0..9 (scaled
by `* 100 / 9`), key `'2'` is dock state, unknown keys skip one value token.
An empty key token reads as the C string terminator and takes the default
branch. -/
def accevLoop : Nat → Option (List Char) → Transport →
    Transport × List OutEvent
  | 0, _, t => (t, [])
  | _ + 1, none, t => (t, [])
  | k + 1, some p, t =>
    let tokr := strsepComma p
    let key := tokr.1.headD (Char.ofNat 0)
    if key = '1' then
      match tokr.2 with
      | some r =>
        let valr := strsepComma r
        let t := { t with battery_level := atoiL valr.1 * 100 / 9 }
        let next := accevLoop k valr.2 t
        (next.1, OutEvent.dbusUpdate BA_DBUS_TRANSPORT_UPDATE_BATTERY :: next.2)
      | none => (t, [])
    else if key = '2' then
      match tokr.2 with
      | some r =>
        let valr := strsepComma r
        accevLoop k valr.2 { t with accev_docked := atoiL valr.1 }
      | none => (t, [])
    else
      match tokr.2 with
      | some r => accevLoop k (strsepComma r).2 t
      | none => (t, [])

/-- `rfcomm_handler_iphoneaccev_set_cb`: the leading token is the pair count
(a `size_t`, hence the `% 2^64` image of `atoi`); the walk is followed by an
acknowledgement. -/
def rfcomm_handler_iphoneaccev_set_cb (c : RfcommConn) (t : Transport)
    (a : BtAt) : CbResult :=
  let tokr := strsepComma a.value
  let count := (atoiL tokr.1 % 2 ^ 64).toNat
  let r := accevLoop count tokr.2 t
  .ok (c, r.1, r.2 ++ [.write .resp none (some "OK".data)])

/-- `rfcomm_handler_xapl_set_cb`: record the accessory metadata and answer
`+XAPL=BlueALSA,0`, or answer `ERROR` on a malformed value. -/
def rfcomm_handler_xapl_set_cb (c : RfcommConn) (t : Transport) (a : BtAt) :
    CbResult :=
  match scanXapl a.value with
  | some (vendor, product, version, features) =>
    .ok (c,
      { t with
          xapl_vendor_id := vendor,
          xapl_product_id := product,
          xapl_version := version,
          xapl_features := features },
      [.write .resp none (some "+XAPL=BlueALSA,0".data)])
  | none =>
    .ok (c, t, [.write .resp none (some "ERROR".data)])

/-- Dispatch from a callback identifier to its function. -/
def runCallback (cb : RfcommCb) (c : RfcommConn) (t : Transport) (a : BtAt) :
    CbResult :=
  match cb with
  | .resp_ok => rfcomm_handler_resp_ok_cb c t a
  | .resp_bcs_ok => rfcomm_handler_resp_bcs_ok_cb c t a
  | .cind_test => rfcomm_handler_cind_test_cb c t a
  | .cind_get => rfcomm_handler_cind_get_cb c t a
  | .cind_resp_test => rfcomm_handler_cind_resp_test_cb c t a
  | .cind_resp_get => rfcomm_handler_cind_resp_get_cb c t a
  | .cmer_set => rfcomm_handler_cmer_set_cb c t a
  | .ciev_resp => rfcomm_handler_ciev_resp_cb c t a
  | .bia_set => rfcomm_handler_bia_set_cb c t a
  | .brsf_set => rfcomm_handler_brsf_set_cb c t a
  | .brsf_resp => rfcomm_handler_brsf_resp_cb c t a
  | .vgm_set => rfcomm_handler_vgm_set_cb c t a
  | .vgs_set => rfcomm_handler_vgs_set_cb c t a
  | .btrh_get => rfcomm_handler_btrh_get_cb c t a
  | .bcs_set => rfcomm_handler_bcs_set_cb c t a
  | .bcs_resp => rfcomm_handler_bcs_resp_cb c t a
  | .bac_set => rfcomm_handler_bac_set_cb c t a
  | .iphoneaccev_set => rfcomm_handler_iphoneaccev_set_cb c t a
  | .xapl_set => rfcomm_handler_xapl_set_cb c t a

/-! ### Handler records and the static table -/

def rfcomm_handler_resp_ok : RfcommHandler := ⟨.resp, [], .resp_ok⟩
def rfcomm_handler_cind_test : RfcommHandler :=
  ⟨.cmd_test, "+CIND".data, .cind_test⟩
def rfcomm_handler_cind_get : RfcommHandler :=
  ⟨.cmd_get, "+CIND".data, .cind_get⟩
def rfcomm_handler_cind_resp_test : RfcommHandler :=
  ⟨.resp, "+CIND".data, .cind_resp_test⟩
def rfcomm_handler_cind_resp_get : RfcommHandler :=
  ⟨.resp, "+CIND".data, .cind_resp_get⟩
def rfcomm_handler_cmer_set : RfcommHandler :=
  ⟨.cmd_set, "+CMER".data, .cmer_set⟩
def rfcomm_handler_ciev_resp : RfcommHandler :=
  ⟨.resp, "+CIEV".data, .ciev_resp⟩
def rfcomm_handler_bia_set : RfcommHandler :=
  ⟨.cmd_set, "+BIA".data, .bia_set⟩
def rfcomm_handler_brsf_set : RfcommHandler :=
  ⟨.cmd_set, "+BRSF".data, .brsf_set⟩
def rfcomm_handler_brsf_resp : RfcommHandler :=
  ⟨.resp, "+BRSF".data, .brsf_resp⟩
def rfcomm_handler_vgm_set : RfcommHandler :=
  ⟨.cmd_set, "+VGM".data, .vgm_set⟩
def rfcomm_handler_vgs_set : RfcommHandler :=
  ⟨.cmd_set, "+VGS".data, .vgs_set⟩
def rfcomm_handler_btrh_get : RfcommHandler :=
  ⟨.cmd_get, "+BTRH".data, .btrh_get⟩
def rfcomm_handler_bcs_set : RfcommHandler :=
  ⟨.cmd_set, "+BCS".data, .bcs_set⟩
def rfcomm_handler_bcs_resp : RfcommHandler :=
  ⟨.resp, "+BCS".data, .bcs_resp⟩
def rfcomm_handler_bac_set : RfcommHandler :=
  ⟨.cmd_set, "+BAC".data, .bac_set⟩
def rfcomm_handler_iphoneaccev_set : RfcommHandler :=
  ⟨.cmd_set, "+IPHONEACCEV".data, .iphoneaccev_set⟩
def rfcomm_handler_xapl_set : RfcommHandler :=
  ⟨.cmd_set, "+XAPL".data, .xapl_set⟩

/-- The static handler table of `rfcomm_get_callback`, in source order. -/
def rfcommHandlers : List RfcommHandler :=
  [rfcomm_handler_cind_test,
   rfcomm_handler_cind_get,
   rfcomm_handler_cmer_set,
   rfcomm_handler_ciev_resp,
   rfcomm_handler_bia_set,
   rfcomm_handler_brsf_set,
   rfcomm_handler_vgm_set,
   rfcomm_handler_vgs_set,
   rfcomm_handler_btrh_get,
   rfcomm_handler_bcs_set,
   rfcomm_handler_bcs_resp,
   rfcomm_handler_bac_set,
   rfcomm_handler_iphoneaccev_set,
   rfcomm_handler_xapl_set]

/-- `rfcomm_get_callback`: first entry whose type and command both match
exactly, else none. -/
def rfcomm_get_callback (a : BtAt) : Option RfcommCb :=
  (rfcommHandlers.find? fun h => h.type = a.type ∧ h.command = a.command).map
    (·.callback)

/-! ### Dispatch prologue of the event loop -/

/-- The `/* use predefined callback, otherwise get generic one */` block of
`rfcomm_thread`: when the one-shot expected handler matches the incoming
message's type and command exactly it wins and its slot is cleared before
anything runs; otherwise the static table is consulted and the slot is left
alone.  Returns (resolved callback, `predefined_callback`, updated
connection). -/
def dispatchCallback (c : RfcommConn) (a : BtAt) :
    Option RfcommCb × Bool × RfcommConn :=
  match c.handler with
  | some h =>
    if h.type = a.type ∧ h.command = a.command then
      (some h.callback, true, { c with handler := none })
    else (rfcomm_get_callback a, false, c)
  | none => (rfcomm_get_callback a, false, c)

/-- The socket-message arm of one event-loop iteration after a message has
been reassembled (`rfcomm_thread` lines after the `read:` label): resolve the
callback, forward the message to the external AT handler descriptor when one
is attached and the message was not consumed by the one-shot handler, run the
callback, and otherwise answer unsupported non-response messages with a
generic `ERROR`. -/
def processMessage (extFd : Bool) (c : RfcommConn) (t : Transport) (a : BtAt) :
    CbResult :=
  let disp := dispatchCallback c a
  let c := disp.2.2
  let fwdOuts : List OutEvent := if extFd ∧ ¬disp.2.1 then [.fwd a] else []
  match disp.1 with
  | some cb =>
    match runCallback cb c t a with
    | .err e => .err e
    | .ok (c, t, outs) => .ok (c, t, fwdOuts ++ outs)
  | none =>
    if ¬extFd ∧ a.type ≠ .resp then
      .ok (c, t, fwdOuts ++ [.write .resp none (some "ERROR".data)])
    else .ok (c, t, fwdOuts)

/-! ### SLC state-machine block of `rfcomm_thread` -/

/-- Transport profile of the session (`t->type.profile` restricted to the two
HFP roles used by this engine). -/
inductive Profile where
  | hf
  | ag
deriving DecidableEq

/-- Trailing `case HFP_CONNECTED:` of both role switches: fire the
sampling/codec change notification. -/
def connectedUpdateEvents : List OutEvent :=
  [.dbusUpdate (BA_DBUS_TRANSPORT_UPDATE_SAMPLING |||
    BA_DBUS_TRANSPORT_UPDATE_CODEC)]

/-- The shared `case HFP_CC_BCS_SET: ... case HFP_CC_CONNECTED:` fall-through
of both role switches: jump to `HFP_CONNECTED` and fire the notification. -/
def connectedTail (c : RfcommConn) (t : Transport) :
    RfcommConn × Transport × List OutEvent :=
  ({ c with state := HFP_CONNECTED }, t, connectedUpdateEvents)

/-- Body of `case HFP_SLC_CONNECTED:` in the HF switch: wait for the AG's
codec selection when the AG supports it, else fall through to
`HFP_CONNECTED`. -/
def hfSlcConnectedCase (c : RfcommConn) (t : Transport) :
    RfcommConn × Transport × List OutEvent :=
  if t.hfp_features &&& HFP_AG_FEAT_CODEC ≠ 0 then (c, t, [])
  else connectedTail c t

/-- The shared `case HFP_SLC_BAC_SET_OK:` step of the HF switch (also the
fall-through target of `BRSF_SET_OK` without codec negotiation): query the
AG's indicator capabilities. -/
def hfCindTestCase (c : RfcommConn) (t : Transport) :
    RfcommConn × Transport × List OutEvent :=
  ({ c with handler := some rfcomm_handler_cind_resp_test }, t,
    [.write .cmd_test (some "+CIND".data) none])

/-- The HF-role switch of the SLC block (`ENABLE_MSBC` build). -/
def hfSwitch (c : RfcommConn) (t : Transport) :
    RfcommConn × Transport × List OutEvent :=
  if c.state = HFP_DISCONNECTED then
    ({ c with handler := some rfcomm_handler_brsf_resp }, t,
      [.write .cmd_set (some "+BRSF".data)
          (some (Nat.toDigits 10 config_hfp_features_rfcomm_hf))])
  else if c.state = HFP_SLC_BRSF_SET then
    ({ c with handler := some rfcomm_handler_resp_ok }, t, [])
  else if c.state = HFP_SLC_BRSF_SET_OK then
    if t.hfp_features &&& HFP_AG_FEAT_CODEC ≠ 0 then
      ({ c with handler := some rfcomm_handler_resp_ok }, t,
        [.write .cmd_set (some "+BAC".data) (some "1,2".data)])
    else hfCindTestCase c t
  else if c.state = HFP_SLC_BAC_SET_OK then hfCindTestCase c t
  else if c.state = HFP_SLC_CIND_TEST then
    ({ c with handler := some rfcomm_handler_resp_ok }, t, [])
  else if c.state = HFP_SLC_CIND_TEST_OK then
    ({ c with handler := some rfcomm_handler_cind_resp_get }, t,
      [.write .cmd_get (some "+CIND".data) none])
  else if c.state = HFP_SLC_CIND_GET then
    ({ c with handler := some rfcomm_handler_resp_ok }, t, [])
  else if c.state = HFP_SLC_CIND_GET_OK then
    ({ c with handler := some rfcomm_handler_resp_ok }, t,
      [.write .cmd_set (some "+CMER".data) (some "3,0,0,1,0".data)])
  else if c.state = HFP_SLC_CMER_SET_OK then
    hfSlcConnectedCase { c with state := HFP_SLC_CONNECTED } t
  else if c.state = HFP_SLC_CONNECTED then hfSlcConnectedCase c t
  else if c.state = HFP_CC_BCS_SET then connectedTail c t
  else if c.state = HFP_CC_BCS_SET_OK then connectedTail c t
  else if c.state = HFP_CC_CONNECTED then connectedTail c t
  else if c.state = HFP_CONNECTED then (c, t, connectedUpdateEvents)
  else (c, t, [])

/-- Body of `case HFP_SLC_CONNECTED:` in the AG switch (`ENABLE_MSBC` build):
when the HF supports codec negotiation, offer mSBC if the HF advertised it and
CVSD otherwise, record the offered codec, and expect the `AT+BCS` echo;
otherwise fall through to `HFP_CONNECTED`. -/
def agSlcConnectedCase (c : RfcommConn) (t : Transport) :
    RfcommConn × Transport × List OutEvent :=
  if t.hfp_features &&& HFP_HF_FEAT_CODEC ≠ 0 then
    ({ c with handler := some rfcomm_handler_bcs_set },
      { t with codec := if c.msbc then HFP_CODEC_MSBC else HFP_CODEC_CVSD },
      [.write .resp (some "+BCS".data)
          (some (if c.msbc then "2".data else "1".data))])
  else connectedTail c t

/-- The AG-role switch of the SLC block: the base SLC steps are driven
entirely by the HF through the static table, so states up to
`CIND_GET_OK` do nothing here. -/
def agSwitch (c : RfcommConn) (t : Transport) :
    RfcommConn × Transport × List OutEvent :=
  if c.state ≤ HFP_SLC_CIND_GET_OK then (c, t, [])
  else if c.state = HFP_SLC_CMER_SET_OK then
    agSlcConnectedCase { c with state := HFP_SLC_CONNECTED } t
  else if c.state = HFP_SLC_CONNECTED then agSlcConnectedCase c t
  else if c.state = HFP_CC_BCS_SET then connectedTail c t
  else if c.state = HFP_CC_BCS_SET_OK then connectedTail c t
  else if c.state = HFP_CC_CONNECTED then connectedTail c t
  else if c.state = HFP_CONNECTED then (c, t, connectedUpdateEvents)
  else (c, t, [])

/-- Lines 613-618 of `rfcomm_thread`: if some progress has been made in the
SLC procedure, record it and reset the retries counter. -/
def retriesOnEntry (c : RfcommConn) : RfcommConn :=
  if c.state ≠ c.state_prev then
    { c with state_prev := c.state, retries := 0 }
  else c

/-- The whole `if (conn.state != HFP_CONNECTED)` block at the top of each
event-loop iteration: reset-or-keep the retry counter, enforce the retry
ceiling (`ETIMEDOUT`), run the role switch, and --- when an expected handler
is pending --- arm the bounded poll timeout and count the attempt.  Returns
the updated state, the emitted effects, and the poll timeout (`none` =
block indefinitely). -/
def slcUpdate (profile : Profile) (c : RfcommConn) (t : Transport) :
    CResult (RfcommConn × Transport × List OutEvent × Option Nat) :=
  if c.state = HFP_CONNECTED then .ok (c, t, [], none)
  else
    let c := retriesOnEntry c
    if RFCOMM_SLC_RETRIES < c.retries then .err ETIMEDOUT
    else
      let step := match profile with
        | .hf => hfSwitch c t
        | .ag => agSwitch c t
      match step.1.handler with
      | some _ =>
        .ok ({ step.1 with retries := step.1.retries + 1 }, step.2.1, step.2.2,
          some RFCOMM_SLC_TIMEOUT)
      | none => .ok (step.1, step.2.1, step.2.2, none)

/-- One event-loop iteration in which the poll reports the RFCOMM socket
readable and the reassembler delivers the message `a`: the SLC block runs
first, then the message is dispatched and handled. -/
def rfcommIterMsg (profile : Profile) (extFd : Bool) (c : RfcommConn)
    (t : Transport) (a : BtAt) : CbResult :=
  match slcUpdate profile c t with
  | .err e => .err e
  | .ok (c, t, outs, _) =>
    match processMessage extFd c t a with
    | .err e => .err e
    | .ok (c, t, outs2) => .ok (c, t, outs ++ outs2)

/-- `n` event-loop iterations in which every poll ends in a timeout (a peer
that never responds): only the SLC block runs each iteration. -/
def runSlcTimeouts (profile : Profile) :
    Nat → RfcommConn → Transport →
    CResult (RfcommConn × Transport) × List OutEvent
  | 0, c, t => (.ok (c, t), [])
  | n + 1, c, t =>
    match slcUpdate profile c t with
    | .err e => (.err e, [])
    | .ok (c, t, outs, _) =>
      let rest := runSlcTimeouts profile n c t
      (rest.1, outs ++ rest.2)

/-- The `struct rfcomm_conn conn = { ... }` initializer of `rfcomm_thread`
(designated fields set, the rest zero-initialized). -/
def rfcommConnInit (t : Transport) : RfcommConn :=
  { state := HFP_DISCONNECTED,
    state_prev := HFP_DISCONNECTED,
    retries := 0,
    handler := none,
    msbc := false,
    mic_gain := t.mic_gain,
    spk_gain := t.spk_gain,
    hfp_ind_map := List.replicate 20 .null }

/-- Predicate on output events: an AT write of the given command. -/
def isWriteCmd (cmd : List Char) : OutEvent → Bool
  | .write _ (some c) _ => c = cmd
  | _ => false

/-! ### Reassembler buffer geometry (claim C9)

`struct at_reader` holds `char buffer[256]`; `rfcomm_read_at` requests
`sizeof(reader->buffer)` bytes from `read(2)` and then stores the NUL
terminator at `buffer[len]`. -/

/-- Capacity of `at_reader.buffer` (`char buffer[256]`), so its valid indices
are `0 .. 255`. -/
def atReaderBufferSize : Nat := 256

/-- Byte count requested from `read(2)`:
`read(fd, buffer, sizeof(reader->buffer))`. -/
def rfcommReadRequestSize : Nat := atReaderBufferSize

/-! ### Auxiliary lemmas on the reassembler -/

/-- An all-consuming parse derivation of the empty message list forces the
empty string. -/
theorem parsesInto_nil_right {parse : List Char → Option (BtAt × List Char)}
    {s : List Char} (h : ParsesInto parse s []) : s = [] := by
  cases h
  rfl

/-- A parse derivation of a non-empty message list starts from a non-empty
string. -/
theorem parsesInto_ne_nil {parse : List Char → Option (BtAt × List Char)}
    {s : List Char} {a : BtAt} {as : List BtAt}
    (h : ParsesInto parse s (a :: as)) : s ≠ [] := by
  cases h
  assumption

/-- Unfolding `rfcomm_read_at` on a non-empty cursor. -/
theorem rfcomm_read_at_some (parse : List Char → Option (BtAt × List Char))
    (q : List SockRead) (m : List Char) :
    rfcomm_read_at parse q ⟨some m⟩ = parseBuffered parse m q := by
  cases q with
  | nil => rfl
  | cons h rest => cases h <;> rfl

/-- Unfolding `rfcomm_read_at` on a clear cursor and a data chunk. -/
theorem rfcomm_read_at_bytes (parse : List Char → Option (BtAt × List Char))
    (q : List SockRead) (s : List Char) :
    rfcomm_read_at parse (.bytes s :: q) ⟨none⟩ =
      if s = [] then (.err ECONNRESET, q, ⟨none⟩)
      else parseBuffered parse s q := rfl

/-- Unfolding one `runReads` step. -/
theorem runReads_succ (parse : List Char → Option (BtAt × List Char))
    (n : Nat) (q : List SockRead) (r : AtReader) :
    runReads parse (n + 1) q r =
      ((rfcomm_read_at parse q r).1 ::
        (runReads parse n (rfcomm_read_at parse q r).2.1
          (rfcomm_read_at parse q r).2.2).1,
       (runReads parse n (rfcomm_read_at parse q r).2.1
          (rfcomm_read_at parse q r).2.2).2.1,
       (runReads parse n (rfcomm_read_at parse q r).2.1
          (rfcomm_read_at parse q r).2.2).2.2) := rfl

/-- A non-empty buffered cursor behaves exactly like a fresh read that
delivered the same bytes: no read result is consumed either way. -/
theorem rfcomm_read_at_cursor_eq_read
    (parse : List Char → Option (BtAt × List Char)) (q : List SockRead)
    {r : List Char} (hr : r ≠ []) :
    rfcomm_read_at parse q ⟨some r⟩ =
      rfcomm_read_at parse (.bytes r :: q) ⟨none⟩ := by
  rw [rfcomm_read_at_some, rfcomm_read_at_bytes, if_neg hr]

/-- The `runReads` form of `rfcomm_read_at_cursor_eq_read`, for at least one
step. -/
theorem runReads_cursor_eq_read
    (parse : List Char → Option (BtAt × List Char)) (n : Nat)
    (q : List SockRead) {r : List Char} (hr : r ≠ []) :
    runReads parse (n + 1) q ⟨some r⟩ =
      runReads parse (n + 1) (.bytes r :: q) ⟨none⟩ := by
  rw [runReads_succ, runReads_succ, rfcomm_read_at_cursor_eq_read parse q hr]

/-- Draining a well-formed concatenation: `K` calls return the `K` messages in
order, consume exactly the one read result that delivered them, and leave the
cursor clear. -/
theorem runReads_parsesInto
    (parse : List Char → Option (BtAt × List Char)) (rest : List SockRead) :
    ∀ {s : List Char} {as : List BtAt}, ParsesInto parse s as → as ≠ [] →
      runReads parse as.length (.bytes s :: rest) ⟨none⟩ =
        (as.map .ok, rest, ⟨none⟩) := by
  intro s as h
  induction h with
  | nil => intro hne; exact absurd rfl hne
  | @cons s' rem a as' hne hp _htail ih =>
    intro _
    have hstep : rfcomm_read_at parse (.bytes s' :: rest) ⟨none⟩ =
        (.ok a, rest, ⟨if rem = [] then none else some rem⟩) := by
      rw [rfcomm_read_at_bytes, if_neg hne]
      simp [parseBuffered, hp]
    cases as' with
    | nil =>
      have hrem : rem = [] := parsesInto_nil_right _htail
      subst hrem
      show runReads parse (0 + 1) _ _ = _
      rw [runReads_succ, hstep]
      simp [runReads]
    | cons b bs =>
      have hrem : rem ≠ [] := parsesInto_ne_nil _htail
      show runReads parse ((b :: bs).length + 1) _ _ = _
      rw [runReads_succ, hstep]
      have hbl : ((b :: bs : List BtAt).length) = bs.length + 1 := rfl
      have hbridge := runReads_cursor_eq_read parse bs.length rest hrem
      rw [← hbl] at hbridge
      have ih' := ih (by simp)
      simp only [if_neg hrem, hbridge, ih']
      simp

/-! ### Demonstration codec instances (used by concrete witnesses only) -/

/-- A codec that rejects every buffer, standing in for `at_parse` on malformed
input. -/
def alwaysFailParse : List Char → Option (BtAt × List Char) := fun _ => none

/-- Split a character list at the first carriage return (message terminator of
the demonstration codec); `none` when there is none. -/
def splitAtCR : List Char → Option (List Char × List Char)
  | [] => none
  | c :: cs =>
    if c = '\r' then some ([], cs)
    else (splitAtCR cs).map (fun p => (c :: p.1, p.2))

/-- A demonstration codec satisfying the spec §6 parse contract: a message is
a (possibly empty) run of characters terminated by a carriage return, decoded
as a bare response; buffers with no terminator are malformed. -/
def demoParse (s : List Char) : Option (BtAt × List Char) :=
  (splitAtCR s).map (fun p => (⟨.resp, [], p.1⟩, p.2))

/-! ### Claim C1 -/

/-- C1 (counterexample): when the codec's parse of the buffered bytes fails,
`rfcomm_read_at` does fail with `EBADMSG`, but it does NOT leave the
reassembler's cursor cleared --- at the concrete input below (a fresh read
delivering the unparseable byte `x`) the call returns with the cursor set to
those very bytes. -/
theorem claim_C1_counterexample :
    (rfcomm_read_at alwaysFailParse [.bytes "x".data] ⟨none⟩).1 =
        .err EBADMSG ∧
    ¬ (rfcomm_read_at alwaysFailParse [.bytes "x".data] ⟨none⟩).2.2.next =
        none := by
  decide

/-- C1 (amended): for every call of `rfcomm_read_at` in which the codec's
parse of the buffered bytes fails, the call returns an error with the
"malformed message" condition (`EBADMSG`) and sets the reassembler's cursor to
the unparsed malformed bytes; the event loop's read step (`rfcomm_thread`)
then clears the cursor on `EBADMSG`, so a subsequent call does not reprocess
the same malformed bytes.  Stated for both cursor sources: leftover bytes
(first and third conjuncts) and a fresh read (second and fourth). -/
theorem claim_C1_parse_failure :
    (∀ (parse : List Char → Option (BtAt × List Char)) (q : List SockRead)
        (m : List Char), parse m = none →
        rfcomm_read_at parse q ⟨some m⟩ = (.err EBADMSG, q, ⟨some m⟩)) ∧
    (∀ (parse : List Char → Option (BtAt × List Char)) (rest : List SockRead)
        (s : List Char), s ≠ [] → parse s = none →
        rfcomm_read_at parse (.bytes s :: rest) ⟨none⟩ =
          (.err EBADMSG, rest, ⟨some s⟩)) ∧
    (∀ (parse : List Char → Option (BtAt × List Char)) (q : List SockRead)
        (m : List Char), parse m = none →
        loopReadStep parse q ⟨some m⟩ = (.drop, q, ⟨none⟩)) ∧
    (∀ (parse : List Char → Option (BtAt × List Char)) (rest : List SockRead)
        (s : List Char), s ≠ [] → parse s = none →
        loopReadStep parse (.bytes s :: rest) ⟨none⟩ =
          (.drop, rest, ⟨none⟩)) := by
  have h1 : ∀ (parse : List Char → Option (BtAt × List Char))
      (q : List SockRead) (m : List Char), parse m = none →
      rfcomm_read_at parse q ⟨some m⟩ = (.err EBADMSG, q, ⟨some m⟩) := by
    intro parse q m hp
    rw [rfcomm_read_at_some]
    simp [parseBuffered, hp]
  have h2 : ∀ (parse : List Char → Option (BtAt × List Char))
      (rest : List SockRead) (s : List Char), s ≠ [] → parse s = none →
      rfcomm_read_at parse (.bytes s :: rest) ⟨none⟩ =
        (.err EBADMSG, rest, ⟨some s⟩) := by
    intro parse rest s hs hp
    rw [rfcomm_read_at_bytes, if_neg hs]
    simp [parseBuffered, hp]
  refine ⟨h1, h2, ?_, ?_⟩
  · intro parse q m hp
    simp [loopReadStep, h1 parse q m hp]
  · intro parse rest s hs hp
    simp [loopReadStep, h2 parse rest s hs hp]

/-- C1 (witness): the amended behaviour evaluated at the unparseable byte
`x`. -/
theorem claim_C1_witness :
    rfcomm_read_at alwaysFailParse [] ⟨some "x".data⟩ =
        (.err EBADMSG, [], ⟨some "x".data⟩) ∧
    loopReadStep alwaysFailParse [.bytes "x".data] ⟨none⟩ =
        (.drop, [], ⟨none⟩) :=
  ⟨claim_C1_parse_failure.1 alwaysFailParse [] "x".data rfl,
   claim_C1_parse_failure.2.2.2 alwaysFailParse [] "x".data (by decide) rfl⟩

/-! ### Claim C2 -/

/-- C2: a single read delivering `K ≥ 1` well-formed concatenated messages is
drained by `K` successive `rfcomm_read_at` calls yielding exactly those
messages in arrival order; only the one read result that delivered them is
consumed (the remaining read queue is untouched) and the cursor ends clear.
Moreover, while the cursor is non-null a call never consumes a read result at
all (second conjunct). -/
theorem claim_C2_reassembly :
    (∀ (parse : List Char → Option (BtAt × List Char)) (s : List Char)
        (as : List BtAt) (rest : List SockRead),
        ParsesInto parse s as → as ≠ [] →
        runReads parse as.length (.bytes s :: rest) ⟨none⟩ =
          (as.map .ok, rest, ⟨none⟩)) ∧
    (∀ (parse : List Char → Option (BtAt × List Char)) (q : List SockRead)
        (m : List Char), (rfcomm_read_at parse q ⟨some m⟩).2.1 = q) := by
  constructor
  · intro parse s as rest h hne
    exact runReads_parsesInto parse rest h hne
  · intro parse q m
    rw [rfcomm_read_at_some]
    cases hp : parse m with
    | none => simp [parseBuffered, hp]
    | some p => simp [parseBuffered, hp]

/-- C2 (witness): under the demonstration codec, the chunk `A\rB\r` holds two
messages; two calls deliver both in order, consume only that chunk, and issue
no further read. -/
theorem claim_C2_witness :
    runReads demoParse 2 [.bytes "A\rB\r".data, .bytes "X".data] ⟨none⟩ =
      ([.ok ⟨.resp, [], "A".data⟩, .ok ⟨.resp, [], "B".data⟩],
        [.bytes "X".data], ⟨none⟩) ∧
    (rfcomm_read_at demoParse [] ⟨some "B\r".data⟩).2.1 = [] := by
  constructor
  · exact claim_C2_reassembly.1 demoParse ("A\rB\r".data)
      [⟨.resp, [], "A".data⟩, ⟨.resp, [], "B".data⟩] [.bytes "X".data]
      (@ParsesInto.cons demoParse "A\rB\r".data "B\r".data
        ⟨.resp, [], "A".data⟩ [⟨.resp, [], "B".data⟩] (by decide) (by decide)
        (@ParsesInto.cons demoParse "B\r".data [] ⟨.resp, [], "B".data⟩ []
          (by decide) (by decide) ParsesInto.nil))
      (by decide)
  · exact claim_C2_reassembly.2 demoParse [] "B\r".data

/-! ### Claim C9 -/

/-- C9: a successful `read(fd, buffer, sizeof(reader->buffer))` may return any
`len` with `0 < len ≤ 256`; the claim asserts the subsequent NUL store index
`len` is always in bounds of the 256-byte buffer, but at `len = 256` (a full
read, satisfying the read postcondition) the store `buffer[len]` is one past
the end of the array --- the claim fails on the code as written. -/
theorem claim_C9_nul_write_out_of_bounds :
    (0 < rfcommReadRequestSize ∧
      rfcommReadRequestSize ≤ rfcommReadRequestSize) ∧
    ¬ rfcommReadRequestSize < atReaderBufferSize := by
  decide

/-! ### Concrete states for witnesses -/

/-- A concrete transport state used by witnesses. -/
def demoTransport : Transport :=
  { hfp_features := 0, codec := 0, mic_gain := 0, spk_gain := 0,
    hfp_inds := List.replicate 8 0, battery_level := 0,
    xapl_vendor_id := 0, xapl_product_id := 0, xapl_version := 0,
    xapl_features := 0, accev_docked := 0 }

/-- The connection state at thread start for the demo transport. -/
def demoConn : RfcommConn := rfcommConnInit demoTransport

/-! ### Claim C3 -/

/-- C3: dispatch gives first refusal to the connection's one-shot expected
handler: when one is installed and its kind and command both exactly match the
incoming message, that handler's callback is the one resolved and the
expected-handler slot is cleared before the callback runs --- the callback
executes on the connection with the slot already `none`, regardless of the
static table (third conjunct); otherwise resolution falls back to exact
kind+command lookup in the static table with the slot untouched (second
conjunct).  The slot being a single `Option` field, at most one expected
handler is ever outstanding. -/
theorem claim_C3_dispatch_precedence :
    (∀ (c : RfcommConn) (a : BtAt) (h : RfcommHandler),
        c.handler = some h → h.type = a.type → h.command = a.command →
        dispatchCallback c a =
          (some h.callback, true, { c with handler := none })) ∧
    (∀ (c : RfcommConn) (a : BtAt),
        (∀ h, c.handler = some h → ¬(h.type = a.type ∧ h.command = a.command)) →
        dispatchCallback c a = (rfcomm_get_callback a, false, c)) ∧
    (∀ (extFd : Bool) (c : RfcommConn) (t : Transport) (a : BtAt)
        (h : RfcommHandler),
        c.handler = some h → h.type = a.type → h.command = a.command →
        processMessage extFd c t a =
          runCallback h.callback { c with handler := none } t a) := by
  have hmatch : ∀ (c : RfcommConn) (a : BtAt) (h : RfcommHandler),
      c.handler = some h → h.type = a.type → h.command = a.command →
      dispatchCallback c a =
        (some h.callback, true, { c with handler := none }) := by
    intro c a h hc ht hcmd
    simp [dispatchCallback, hc, ht, hcmd]
  refine ⟨hmatch, ?_, ?_⟩
  · intro c a hno
    cases hc : c.handler with
    | none => simp [dispatchCallback, hc]
    | some h =>
      have := hno h hc
      simp [dispatchCallback, hc, this]
  · intro extFd c t a h hc ht hcmd
    unfold processMessage
    rw [hmatch c a h hc ht hcmd]
    cases hr : runCallback h.callback { c with handler := none } t a with
    | err e => simp [hr]
    | ok r => simp [hr]

/-- C3 (witness): the matching one-shot handler wins over the static table
(the message `+CIND` test command does have a static entry, yet the installed
expected handler is used and consumed), and without a match the static table
resolves. -/
theorem claim_C3_witness :
    dispatchCallback
        { demoConn with handler := some rfcomm_handler_cind_resp_test }
        ⟨.resp, "+CIND".data, "v".data⟩ =
      (some RfcommCb.cind_resp_test, true, demoConn) ∧
    dispatchCallback demoConn ⟨.cmd_set, "+CMER".data, "3,0,0,1,0".data⟩ =
      (rfcomm_get_callback ⟨.cmd_set, "+CMER".data, "3,0,0,1,0".data⟩, false,
        demoConn) ∧
    processMessage false
        { demoConn with handler := some rfcomm_handler_cind_resp_test }
        demoTransport ⟨.resp, "+CIND".data, "v".data⟩ =
      runCallback .cind_resp_test demoConn demoTransport
        ⟨.resp, "+CIND".data, "v".data⟩ := by
  refine ⟨?_, ?_, ?_⟩
  · have := claim_C3_dispatch_precedence.1
      { demoConn with handler := some rfcomm_handler_cind_resp_test }
      ⟨.resp, "+CIND".data, "v".data⟩ rfcomm_handler_cind_resp_test
      rfl (by decide) (by decide)
    exact this
  · exact claim_C3_dispatch_precedence.2.1 demoConn
      ⟨.cmd_set, "+CMER".data, "3,0,0,1,0".data⟩ (by intro h hc; cases hc)
  · have := claim_C3_dispatch_precedence.2.2 false
      { demoConn with handler := some rfcomm_handler_cind_resp_test }
      demoTransport ⟨.resp, "+CIND".data, "v".data⟩
      rfcomm_handler_cind_resp_test rfl (by decide) (by decide)
    exact this

/-! ### Claim C8 -/

/-- C8: when neither the one-shot expected handler nor the static table yields
a handler and no external-handler descriptor is attached, a non-response
message is answered with a generic `ERROR` and a response is silently ignored
with no reply written; the connection and transport are untouched either
way. -/
theorem claim_C8_unsupported_message :
    ∀ (c : RfcommConn) (t : Transport) (a : BtAt),
      (∀ h, c.handler = some h → ¬(h.type = a.type ∧ h.command = a.command)) →
      rfcomm_get_callback a = none →
      (a.type ≠ .resp →
        processMessage false c t a =
          .ok (c, t, [.write .resp none (some "ERROR".data)])) ∧
      (a.type = .resp → processMessage false c t a = .ok (c, t, [])) := by
  intro c t a hno hstat
  have hdisp := claim_C3_dispatch_precedence.2.1 c a hno
  constructor
  · intro hresp
    unfold processMessage
    rw [hdisp, hstat]
    simp [hresp]
  · intro hresp
    unfold processMessage
    rw [hdisp, hstat]
    simp [hresp]

/-- C8 (witness): an unknown non-response command is NACKed; an unknown
response is dropped silently. -/
theorem claim_C8_witness :
    processMessage false demoConn demoTransport
        ⟨.cmd_set, "+FOO".data, "1".data⟩ =
      .ok (demoConn, demoTransport,
        [.write .resp none (some "ERROR".data)]) ∧
    processMessage false demoConn demoTransport
        ⟨.resp, "+FOO".data, "1".data⟩ =
      .ok (demoConn, demoTransport, []) :=
  ⟨(claim_C8_unsupported_message demoConn demoTransport
      ⟨.cmd_set, "+FOO".data, "1".data⟩ (by intro h hc; cases hc)
      (by decide)).1 (by decide),
   (claim_C8_unsupported_message demoConn demoTransport
      ⟨.resp, "+FOO".data, "1".data⟩ (by intro h hc; cases hc)
      (by decide)).2 rfl⟩

/-! ### Claim C10 -/

/-- C10: when the installed one-shot expected handler is the generic OK/ERROR
response handler and the matching response's value is neither `OK` nor
`ERROR`, the dispatch consumes the expectation (the slot is cleared), the
callback returns success, and the connection's SLC state --- and everything
else --- is left unchanged, with no output written: the expectation is spent
without the state advancing. -/
theorem claim_C10_expectation_consumed_without_advance :
    ∀ (c : RfcommConn) (t : Transport) (a : BtAt),
      c.handler = some rfcomm_handler_resp_ok → a.type = .resp →
      a.command = [] → a.value ≠ "OK".data → a.value ≠ "ERROR".data →
      processMessage false c t a = .ok ({ c with handler := none }, t, []) := by
  intro c t a hc ht hcmd hok herr
  rw [claim_C3_dispatch_precedence.2.2 false c t a rfcomm_handler_resp_ok hc
    (by rw [ht]; rfl) (by rw [hcmd]; rfl)]
  simp [runCallback, rfcomm_handler_resp_ok, rfcomm_handler_resp_ok_cb, hok,
    herr]

/-- C10 (witness): the response value `FOO` is neither `OK` nor `ERROR`; the
expectation is consumed, the state stays, nothing is written. -/
theorem claim_C10_witness :
    processMessage false
        { demoConn with state := 4, handler := some rfcomm_handler_resp_ok }
        demoTransport ⟨.resp, [], "FOO".data⟩ =
      .ok ({ demoConn with state := 4, handler := none }, demoTransport,
        []) := by
  have := claim_C10_expectation_consumed_without_advance
    { demoConn with state := 4, handler := some rfcomm_handler_resp_ok }
    demoTransport ⟨.resp, [], "FOO".data⟩ rfl rfl rfl (by decide) (by decide)
  exact this

/-! ### Auxiliary lemmas on the retry bookkeeping -/

/-- The role switch never touches the retry counter (HF side). -/
theorem hfSwitch_retries (c : RfcommConn) (t : Transport) :
    (hfSwitch c t).1.retries = c.retries := by
  have hcc : ∀ c' : RfcommConn,
      (hfSlcConnectedCase c' t).1.retries = c'.retries := by
    intro c'
    unfold hfSlcConnectedCase connectedTail
    split <;> rfl
  unfold hfSwitch
  by_cases h0 : c.state = HFP_DISCONNECTED
  · rewrite [if_pos h0]
    rfl
  rewrite [if_neg h0]
  by_cases h1 : c.state = HFP_SLC_BRSF_SET
  · rewrite [if_pos h1]
    rfl
  rewrite [if_neg h1]
  by_cases h2 : c.state = HFP_SLC_BRSF_SET_OK
  · rewrite [if_pos h2]
    split <;> rfl
  rewrite [if_neg h2]
  by_cases h3 : c.state = HFP_SLC_BAC_SET_OK
  · rewrite [if_pos h3]
    rfl
  rewrite [if_neg h3]
  by_cases h4 : c.state = HFP_SLC_CIND_TEST
  · rewrite [if_pos h4]
    rfl
  rewrite [if_neg h4]
  by_cases h5 : c.state = HFP_SLC_CIND_TEST_OK
  · rewrite [if_pos h5]
    rfl
  rewrite [if_neg h5]
  by_cases h6 : c.state = HFP_SLC_CIND_GET
  · rewrite [if_pos h6]
    rfl
  rewrite [if_neg h6]
  by_cases h7 : c.state = HFP_SLC_CIND_GET_OK
  · rewrite [if_pos h7]
    rfl
  rewrite [if_neg h7]
  by_cases h8 : c.state = HFP_SLC_CMER_SET_OK
  · rewrite [if_pos h8]
    rewrite [hcc]
    rfl
  rewrite [if_neg h8]
  by_cases h9 : c.state = HFP_SLC_CONNECTED
  · rewrite [if_pos h9]
    rewrite [hcc]
    rfl
  rewrite [if_neg h9]
  by_cases h10 : c.state = HFP_CC_BCS_SET
  · rewrite [if_pos h10]
    rfl
  rewrite [if_neg h10]
  by_cases h11 : c.state = HFP_CC_BCS_SET_OK
  · rewrite [if_pos h11]
    rfl
  rewrite [if_neg h11]
  by_cases h12 : c.state = HFP_CC_CONNECTED
  · rewrite [if_pos h12]
    rfl
  rewrite [if_neg h12]
  by_cases h13 : c.state = HFP_CONNECTED
  · rewrite [if_pos h13]
    rfl
  rewrite [if_neg h13]
  rfl

/-- The role switch never touches the retry counter (AG side). -/
theorem agSwitch_retries (c : RfcommConn) (t : Transport) :
    (agSwitch c t).1.retries = c.retries := by
  have hcc : ∀ c' : RfcommConn,
      (agSlcConnectedCase c' t).1.retries = c'.retries := by
    intro c'
    unfold agSlcConnectedCase connectedTail
    split <;> rfl
  unfold agSwitch
  by_cases h0 : c.state ≤ HFP_SLC_CIND_GET_OK
  · rewrite [if_pos h0]
    rfl
  rewrite [if_neg h0]
  by_cases h1 : c.state = HFP_SLC_CMER_SET_OK
  · rewrite [if_pos h1]
    rewrite [hcc]
    rfl
  rewrite [if_neg h1]
  by_cases h2 : c.state = HFP_SLC_CONNECTED
  · rewrite [if_pos h2]
    rewrite [hcc]
    rfl
  rewrite [if_neg h2]
  by_cases h3 : c.state = HFP_CC_BCS_SET
  · rewrite [if_pos h3]
    rfl
  rewrite [if_neg h3]
  by_cases h4 : c.state = HFP_CC_BCS_SET_OK
  · rewrite [if_pos h4]
    rfl
  rewrite [if_neg h4]
  by_cases h5 : c.state = HFP_CC_CONNECTED
  · rewrite [if_pos h5]
    rfl
  rewrite [if_neg h5]
  by_cases h6 : c.state = HFP_CONNECTED
  · rewrite [if_pos h6]
    rfl
  rewrite [if_neg h6]
  rfl

/-- The role switch never decreases the SLC state (HF side). -/
theorem hfSwitch_state_mono (c : RfcommConn) (t : Transport) :
    c.state ≤ (hfSwitch c t).1.state := by
  have hcc : ∀ c' : RfcommConn,
      (hfSlcConnectedCase c' t).1.state =
        if t.hfp_features &&& HFP_AG_FEAT_CODEC ≠ 0 then c'.state
        else HFP_CONNECTED := by
    intro c'
    unfold hfSlcConnectedCase connectedTail
    split <;> simp_all
  unfold hfSwitch
  by_cases h0 : c.state = HFP_DISCONNECTED
  · rewrite [if_pos h0]
    exact Nat.le_refl _
  rewrite [if_neg h0]
  by_cases h1 : c.state = HFP_SLC_BRSF_SET
  · rewrite [if_pos h1]
    exact Nat.le_refl _
  rewrite [if_neg h1]
  by_cases h2 : c.state = HFP_SLC_BRSF_SET_OK
  · rewrite [if_pos h2]
    split <;> exact Nat.le_refl _
  rewrite [if_neg h2]
  by_cases h3 : c.state = HFP_SLC_BAC_SET_OK
  · rewrite [if_pos h3]
    exact Nat.le_refl _
  rewrite [if_neg h3]
  by_cases h4 : c.state = HFP_SLC_CIND_TEST
  · rewrite [if_pos h4]
    exact Nat.le_refl _
  rewrite [if_neg h4]
  by_cases h5 : c.state = HFP_SLC_CIND_TEST_OK
  · rewrite [if_pos h5]
    exact Nat.le_refl _
  rewrite [if_neg h5]
  by_cases h6 : c.state = HFP_SLC_CIND_GET
  · rewrite [if_pos h6]
    exact Nat.le_refl _
  rewrite [if_neg h6]
  by_cases h7 : c.state = HFP_SLC_CIND_GET_OK
  · rewrite [if_pos h7]
    exact Nat.le_refl _
  rewrite [if_neg h7]
  by_cases h8 : c.state = HFP_SLC_CMER_SET_OK
  · rewrite [if_pos h8]
    rewrite [hcc, h8]
    split
    · show HFP_SLC_CMER_SET_OK ≤ HFP_SLC_CONNECTED
      decide
    · decide
  rewrite [if_neg h8]
  by_cases h9 : c.state = HFP_SLC_CONNECTED
  · rewrite [if_pos h9]
    rewrite [hcc, h9]
    split
    · exact Nat.le_refl _
    · decide
  rewrite [if_neg h9]
  by_cases h10 : c.state = HFP_CC_BCS_SET
  · rewrite [if_pos h10]
    rewrite [h10]
    show HFP_CC_BCS_SET ≤ HFP_CONNECTED
    decide
  rewrite [if_neg h10]
  by_cases h11 : c.state = HFP_CC_BCS_SET_OK
  · rewrite [if_pos h11]
    rewrite [h11]
    show HFP_CC_BCS_SET_OK ≤ HFP_CONNECTED
    decide
  rewrite [if_neg h11]
  by_cases h12 : c.state = HFP_CC_CONNECTED
  · rewrite [if_pos h12]
    rewrite [h12]
    show HFP_CC_CONNECTED ≤ HFP_CONNECTED
    decide
  rewrite [if_neg h12]
  by_cases h13 : c.state = HFP_CONNECTED
  · rewrite [if_pos h13]
    exact Nat.le_refl _
  rewrite [if_neg h13]
  exact Nat.le_refl _

/-- The role switch never decreases the SLC state (AG side). -/
theorem agSwitch_state_mono (c : RfcommConn) (t : Transport) :
    c.state ≤ (agSwitch c t).1.state := by
  have hcc : ∀ c' : RfcommConn,
      (agSlcConnectedCase c' t).1.state =
        if t.hfp_features &&& HFP_HF_FEAT_CODEC ≠ 0 then c'.state
        else HFP_CONNECTED := by
    intro c'
    unfold agSlcConnectedCase connectedTail
    split <;> simp_all
  unfold agSwitch
  by_cases h0 : c.state ≤ HFP_SLC_CIND_GET_OK
  · rewrite [if_pos h0]
    exact Nat.le_refl _
  rewrite [if_neg h0]
  by_cases h1 : c.state = HFP_SLC_CMER_SET_OK
  · rewrite [if_pos h1]
    rewrite [hcc, h1]
    split
    · show HFP_SLC_CMER_SET_OK ≤ HFP_SLC_CONNECTED
      decide
    · decide
  rewrite [if_neg h1]
  by_cases h2 : c.state = HFP_SLC_CONNECTED
  · rewrite [if_pos h2]
    rewrite [hcc, h2]
    split
    · exact Nat.le_refl _
    · decide
  rewrite [if_neg h2]
  by_cases h3 : c.state = HFP_CC_BCS_SET
  · rewrite [if_pos h3]
    rewrite [h3]
    show HFP_CC_BCS_SET ≤ HFP_CONNECTED
    decide
  rewrite [if_neg h3]
  by_cases h4 : c.state = HFP_CC_BCS_SET_OK
  · rewrite [if_pos h4]
    rewrite [h4]
    show HFP_CC_BCS_SET_OK ≤ HFP_CONNECTED
    decide
  rewrite [if_neg h4]
  by_cases h5 : c.state = HFP_CC_CONNECTED
  · rewrite [if_pos h5]
    rewrite [h5]
    show HFP_CC_CONNECTED ≤ HFP_CONNECTED
    decide
  rewrite [if_neg h5]
  by_cases h6 : c.state = HFP_CONNECTED
  · rewrite [if_pos h6]
    exact Nat.le_refl _
  rewrite [if_neg h6]
  exact Nat.le_refl _

/-! ### Claim C5 -/

/-- C5: against a peer that never responds (every poll times out), the HF
worker starting from `DISCONNECTED` issues exactly `RFCOMM_SLC_RETRIES + 1`
writes, all of them the same pending `AT+BRSF` command, and the next iteration
terminates the connection with `ETIMEDOUT` (first three conjuncts; the fourth
shows the run was still alive with `retries = RFCOMM_SLC_RETRIES + 1` and the
expectation re-armed one iteration earlier).  In general (last three
conjuncts): an iteration entered with the state unchanged from the previous
iteration keeps the counter and then increments it exactly when an expected
handler is pending, and an iteration entered after a state change first
resets the counter to zero. -/
theorem claim_C5_retry_ceiling :
    ((runSlcTimeouts .hf (RFCOMM_SLC_RETRIES + 2) demoConn demoTransport).1 =
        .err ETIMEDOUT ∧
      ((runSlcTimeouts .hf (RFCOMM_SLC_RETRIES + 2) demoConn
            demoTransport).2.filter (isWriteCmd "+BRSF".data)).length =
        RFCOMM_SLC_RETRIES + 1 ∧
      (runSlcTimeouts .hf (RFCOMM_SLC_RETRIES + 2) demoConn
          demoTransport).2.all (isWriteCmd "+BRSF".data) = true ∧
      (runSlcTimeouts .hf (RFCOMM_SLC_RETRIES + 1) demoConn
          demoTransport).1 =
        .ok ({ demoConn with retries := RFCOMM_SLC_RETRIES + 1, handler := some rfcomm_handler_brsf_resp }, demoTransport)) ∧
    (∀ c : RfcommConn, c.state = c.state_prev → retriesOnEntry c = c) ∧
    (∀ c : RfcommConn, c.state ≠ c.state_prev →
      (retriesOnEntry c).retries = 0) ∧
    (∀ (p : Profile) (c : RfcommConn) (t : Transport)
        (c' : RfcommConn) (t' : Transport) (outs : List OutEvent)
        (tmo : Option Nat),
      c.state ≠ HFP_CONNECTED → c.state = c.state_prev →
      slcUpdate p c t = .ok (c', t', outs, tmo) →
      c'.retries = if c'.handler.isSome then c.retries + 1 else c.retries) := by
  refine ⟨by decide, ?_, ?_, ?_⟩
  · intro c hsame
    unfold retriesOnEntry
    rw [if_neg (by simp [hsame])]
  · intro c hdiff
    unfold retriesOnEntry
    rw [if_pos hdiff]
  · intro p c t c' t' outs tmo hconn hsame hok
    have hentry : retriesOnEntry c = c := by
      unfold retriesOnEntry
      rw [if_neg (by simp [hsame])]
    unfold slcUpdate at hok
    rw [if_neg hconn, hentry] at hok
    by_cases hceil : RFCOMM_SLC_RETRIES < c.retries
    · rw [if_pos hceil] at hok
      cases hok
    · rw [if_neg hceil] at hok
      cases p with
      | hf =>
        cases hh : (hfSwitch c t).1.handler with
        | some h =>
          simp only [hh] at hok
          simp only [CResult.ok.injEq, Prod.mk.injEq] at hok
          obtain ⟨h1, -, -, -⟩ := hok
          subst h1
          simp [hh, hfSwitch_retries c t]
        | none =>
          simp only [hh] at hok
          simp only [CResult.ok.injEq, Prod.mk.injEq] at hok
          obtain ⟨h1, -, -, -⟩ := hok
          subst h1
          simp [hh, hfSwitch_retries c t]
      | ag =>
        cases hh : (agSwitch c t).1.handler with
        | some h =>
          simp only [hh] at hok
          simp only [CResult.ok.injEq, Prod.mk.injEq] at hok
          obtain ⟨h1, -, -, -⟩ := hok
          subst h1
          simp [hh, agSwitch_retries c t]
        | none =>
          simp only [hh] at hok
          simp only [CResult.ok.injEq, Prod.mk.injEq] at hok
          obtain ⟨h1, -, -, -⟩ := hok
          subst h1
          simp [hh, agSwitch_retries c t]

/-- C5 (witness): the retry bookkeeping evaluated at concrete states: no
reset when the state did not change, a reset to zero when it did, and a
counted attempt for the armed `DISCONNECTED` iteration. -/
theorem claim_C5_witness :
    retriesOnEntry demoConn = demoConn ∧
    (retriesOnEntry { demoConn with state := 1, retries := 2 }).retries = 0 ∧
    ({ demoConn with retries := 1, handler := some rfcomm_handler_brsf_resp } : RfcommConn).retries =
      if ({ demoConn with retries := 1, handler := some rfcomm_handler_brsf_resp } : RfcommConn).handler.isSome
      then demoConn.retries + 1 else demoConn.retries :=
  ⟨claim_C5_retry_ceiling.2.1 demoConn rfl,
   claim_C5_retry_ceiling.2.2.1 { demoConn with state := 1, retries := 2 }
     (by decide),
   claim_C5_retry_ceiling.2.2.2 .hf demoConn demoTransport
     { demoConn with retries := 1, handler := some rfcomm_handler_brsf_resp }
     demoTransport
     [.write .cmd_set (some "+BRSF".data)
         (some (Nat.toDigits 10 config_hfp_features_rfcomm_hf))]
     (some RFCOMM_SLC_TIMEOUT) (by decide) rfl (by decide)⟩

/-! ### Claim C6 -/

/-- C6: in the AG role with codec negotiation supported by the HF
(`HFP_HF_FEAT_CODEC` set):
first conjunct --- at `SLC_CONNECTED` the worker offers codec 2 (mSBC) when
the HF previously advertised it (the `msbc` flag) and codec 1 (CVSD)
otherwise, records the offered codec, installs the `AT+BCS` expectation, and
stays in the pre-CONNECTED state `SLC_CONNECTED`;
second conjunct --- a matching `+BCS` echo is acknowledged `OK` and advances
(only) to `BCS_SET_OK`;
third conjunct --- the following iteration then reaches `CONNECTED` with the
sampling/codec notification, so `CONNECTED` is reached only after the matching
acknowledgement;
fourth conjunct --- a mismatched codec echo is answered `ERROR` and the
connection state is left exactly as it was (pre-CONNECTED);
fifth and sixth conjuncts --- the `msbc` flag is exactly the HF's `AT+BAC`
advertisement: the value `1,2` sets it, the value `1` leaves it unset. -/
theorem claim_C6_ag_codec_negotiation :
    (∀ (c : RfcommConn) (t : Transport),
      c.state = HFP_SLC_CONNECTED → c.state_prev = c.state →
      c.retries ≤ RFCOMM_SLC_RETRIES →
      t.hfp_features &&& HFP_HF_FEAT_CODEC ≠ 0 →
      slcUpdate .ag c t =
        .ok ({ c with handler := some rfcomm_handler_bcs_set, retries := c.retries + 1 },
          { t with codec := if c.msbc then HFP_CODEC_MSBC else HFP_CODEC_CVSD },
          [.write .resp (some "+BCS".data)
              (some (if c.msbc then "2".data else "1".data))],
          some RFCOMM_SLC_TIMEOUT)) ∧
    (∀ (c : RfcommConn) (t : Transport) (a : BtAt),
      (t.codec : Int) = atoiL a.value →
      rfcomm_handler_bcs_set_cb c t a =
        .ok ({ c with state := stateMax c.state HFP_CC_BCS_SET_OK }, t,
          [.write .resp none (some "OK".data)])) ∧
    (∀ (c : RfcommConn) (t : Transport),
      c.state = HFP_CC_BCS_SET_OK → c.state_prev ≠ c.state →
      c.handler = none →
      slcUpdate .ag c t =
        .ok ({ c with state := HFP_CONNECTED, state_prev := HFP_CC_BCS_SET_OK, retries := 0 }, t,
          connectedUpdateEvents, none)) ∧
    (∀ (c : RfcommConn) (t : Transport) (a : BtAt),
      (t.codec : Int) ≠ atoiL a.value →
      rfcomm_handler_bcs_set_cb c t a =
        .ok (c, t, [.write .resp none (some "ERROR".data)])) ∧
    (∀ (c : RfcommConn) (t : Transport) (c' : RfcommConn) (t' : Transport)
        (outs : List OutEvent),
      rfcomm_handler_bac_set_cb c t ⟨.cmd_set, "+BAC".data, "1,2".data⟩ =
        .ok (c', t', outs) → c'.msbc = true) ∧
    (∀ (c : RfcommConn) (t : Transport) (c' : RfcommConn) (t' : Transport)
        (outs : List OutEvent),
      rfcomm_handler_bac_set_cb c t ⟨.cmd_set, "+BAC".data, "1".data⟩ =
        .ok (c', t', outs) → c'.msbc = c.msbc) := by
  refine ⟨?_, ?_, ?_, ?_, ?_, ?_⟩
  · intro c t hstate hprev hret hfeat
    unfold slcUpdate
    rw [if_neg (by rw [hstate]; decide)]
    have hentry : retriesOnEntry c = c := by
      unfold retriesOnEntry
      rw [if_neg (by simp [hprev])]
    rw [hentry, if_neg (Nat.not_lt.mpr hret)]
    unfold agSwitch
    rw [if_neg (by rw [hstate]; decide), if_neg (by rw [hstate]; decide),
      if_pos hstate]
    unfold agSlcConnectedCase
    rw [if_pos hfeat]
  · intro c t a hmatch
    unfold rfcomm_handler_bcs_set_cb
    rw [if_neg (by simp [hmatch])]
  · intro c t hstate hprev hnone
    unfold slcUpdate
    rw [if_neg (by rw [hstate]; decide)]
    have hentry : retriesOnEntry c =
        { c with state_prev := c.state, retries := 0 } := by
      unfold retriesOnEntry
      rw [if_pos (by intro h; exact hprev h.symm)]
    rw [hentry, if_neg (by simp [RFCOMM_SLC_RETRIES])]
    unfold agSwitch
    rw [if_neg (by simp [hstate]; decide), if_neg (by simp [hstate]; decide),
      if_neg (by simp [hstate]; decide), if_neg (by simp [hstate]; decide),
      if_pos (by simp [hstate])]
    unfold connectedTail
    simp [hstate, hnone]
  · intro c t a hmis
    unfold rfcomm_handler_bcs_set_cb
    rw [if_pos hmis]
  · intro c t c' t' outs hok
    unfold rfcomm_handler_bac_set_cb at hok
    simp only [CResult.ok.injEq, Prod.mk.injEq] at hok
    obtain ⟨h1, -, -⟩ := hok
    subst h1
    have hb : bacHasMsbc "1,2".data = true := by decide
    simp [hb]
  · intro c t c' t' outs hok
    unfold rfcomm_handler_bac_set_cb at hok
    simp only [CResult.ok.injEq, Prod.mk.injEq] at hok
    obtain ⟨h1, -, -⟩ := hok
    subst h1
    have hb : bacHasMsbc "1".data = false := by decide
    simp [hb]

/-- C6 (witness): the negotiation pieces evaluated concretely: with the HF
codec-negotiation bit set and mSBC advertised, the offer is `+BCS` `2` with
codec 2 recorded; the matching echo `2` is acknowledged and advances to
`BCS_SET_OK`; the next iteration reaches `CONNECTED` with the sampling/codec
notification; the mismatched echo `1` is answered `ERROR` with the state
record untouched. -/
theorem claim_C6_witness :
    slcUpdate .ag { demoConn with state := HFP_SLC_CONNECTED, state_prev := HFP_SLC_CONNECTED, msbc := true }
      { demoTransport with hfp_features := HFP_HF_FEAT_CODEC } =
      .ok ({ demoConn with state := HFP_SLC_CONNECTED, state_prev := HFP_SLC_CONNECTED, msbc := true, handler := some rfcomm_handler_bcs_set, retries := 1 },
        { demoTransport with hfp_features := HFP_HF_FEAT_CODEC, codec := HFP_CODEC_MSBC },
        [.write .resp (some "+BCS".data) (some "2".data)],
        some RFCOMM_SLC_TIMEOUT) ∧
    rfcomm_handler_bcs_set_cb
        { demoConn with state := HFP_SLC_CONNECTED, msbc := true }
        { demoTransport with hfp_features := HFP_HF_FEAT_CODEC, codec := 2 }
        ⟨.cmd_set, "+BCS".data, "2".data⟩ =
      .ok ({ demoConn with state := HFP_CC_BCS_SET_OK, msbc := true },
        { demoTransport with hfp_features := HFP_HF_FEAT_CODEC, codec := 2 },
        [.write .resp none (some "OK".data)]) ∧
    slcUpdate .ag { demoConn with state := HFP_CC_BCS_SET_OK, state_prev := HFP_SLC_CONNECTED, msbc := true }
      { demoTransport with hfp_features := HFP_HF_FEAT_CODEC, codec := 2 } =
      .ok ({ demoConn with state := HFP_CONNECTED, state_prev := HFP_CC_BCS_SET_OK, retries := 0, msbc := true },
        { demoTransport with hfp_features := HFP_HF_FEAT_CODEC, codec := 2 },
        connectedUpdateEvents, none) ∧
    rfcomm_handler_bcs_set_cb
        { demoConn with state := HFP_SLC_CONNECTED, msbc := true }
        { demoTransport with hfp_features := HFP_HF_FEAT_CODEC, codec := 2 }
        ⟨.cmd_set, "+BCS".data, "1".data⟩ =
      .ok ({ demoConn with state := HFP_SLC_CONNECTED, msbc := true },
        { demoTransport with hfp_features := HFP_HF_FEAT_CODEC, codec := 2 },
        [.write .resp none (some "ERROR".data)]) := by
  refine ⟨?_, ?_, ?_, ?_⟩
  · have := claim_C6_ag_codec_negotiation.1
      { demoConn with state := HFP_SLC_CONNECTED, state_prev := HFP_SLC_CONNECTED, msbc := true }
      { demoTransport with hfp_features := HFP_HF_FEAT_CODEC }
      rfl rfl (by decide) (by decide)
    exact this
  · have := claim_C6_ag_codec_negotiation.2.1
      { demoConn with state := HFP_SLC_CONNECTED, msbc := true }
      { demoTransport with hfp_features := HFP_HF_FEAT_CODEC, codec := 2 }
      ⟨.cmd_set, "+BCS".data, "2".data⟩ (by decide)
    exact this
  · have := claim_C6_ag_codec_negotiation.2.2.1
      { demoConn with state := HFP_CC_BCS_SET_OK, state_prev := HFP_SLC_CONNECTED, msbc := true }
      { demoTransport with hfp_features := HFP_HF_FEAT_CODEC, codec := 2 }
      rfl (by decide) rfl
    exact this
  · have := claim_C6_ag_codec_negotiation.2.2.2.1
      { demoConn with state := HFP_SLC_CONNECTED, msbc := true }
      { demoTransport with hfp_features := HFP_HF_FEAT_CODEC, codec := 2 }
      ⟨.cmd_set, "+BCS".data, "1".data⟩ (by decide)
    exact this

/-! ### Claim C7 -/

/-- Loop computation behind `rfcomm_handler_cind_resp_get_cb` for a map whose
first two wire slots are call and battery-charge and the value `0,3`: call is
stored as 0, battery-charge as 3, the battery level becomes `3 * 100 / 5`, and
one battery notification fires; the loop stops at `3` (no further comma), so
the remaining map entries are never touched. -/
theorem cindGetLoop_call_battchg (rest : List HfpInd) (t : Transport) :
    cindGetLoop (.call :: .battchg :: rest) "0,3".data t =
      ({ t with hfp_inds := (t.hfp_inds.set 2 0).set 7 3, battery_level := 60 },
        [.dbusUpdate BA_DBUS_TRANSPORT_UPDATE_BATTERY]) := rfl

/-- C7: with an indicator map listing call at wire index 1 and battery-charge
at wire index 2 (its tail arbitrary) and an all-zero indicator array, the
`+CIND` read response `0,3` sets the call indicator to 0 and the
battery-charge indicator to 3, reports battery level `60 = 3 * 100 / 5`, and
fires one battery notification (first conjunct); every `+CIEV` event whose
scanned wire index maps to battery-charge stores the value and reports
`value * 100 / 5` through the same formula (second conjunct; the `% 2^32`
image is the C `unsigned int` product, the identity for every in-range
battery value `v ≤ 5`, third conjunct). -/
theorem claim_C7_indicator_mapping :
    (∀ (c : RfcommConn) (t : Transport) (rest : List HfpInd),
      c.hfp_ind_map = .call :: .battchg :: rest →
      t.hfp_inds = List.replicate 8 0 →
      rfcomm_handler_cind_resp_get_cb c t ⟨.resp, "+CIND".data, "0,3".data⟩ =
        .ok ({ c with state := stateMax c.state HFP_SLC_CIND_GET },
          { t with hfp_inds := [0, 0, 0, 0, 0, 0, 0, 3], battery_level := 60 },
          [.dbusUpdate BA_DBUS_TRANSPORT_UPDATE_BATTERY])) ∧
    (∀ (c : RfcommConn) (t : Transport) (a : BtAt) (i v : Nat),
      sscanf_uu a.value = some (i, v) →
      c.hfp_ind_map.getD (i - 1) .null = .battchg →
      rfcomm_handler_ciev_resp_cb c t a =
        .ok (c,
          { t with hfp_inds := t.hfp_inds.set (indIdx .battchg) (v % 256), battery_level := ((v * 100) % 2 ^ 32 : Nat) / 5 },
          [.dbusUpdate BA_DBUS_TRANSPORT_UPDATE_BATTERY])) ∧
    (∀ v : Nat, v ≤ 5 → ((v * 100) % 2 ^ 32 : Nat) / 5 = v * 100 / 5) := by
  refine ⟨?_, ?_, ?_⟩
  · intro c t rest hmap hinds
    unfold rfcomm_handler_cind_resp_get_cb
    rw [hmap, cindGetLoop_call_battchg, hinds]
    rfl
  · intro c t a i v hscan hind
    unfold rfcomm_handler_ciev_resp_cb
    rw [hscan]
    dsimp only
    rw [hind]
  · intro v hv
    have : v * 100 < 2 ^ 32 := by omega
    rw [Nat.mod_eq_of_lt this]

/-- C7 (witness): the round trip evaluated on the concrete map
`[call, battchg, ...]`: the `+CIND` read response `0,3` yields indicators
`call = 0`, `battchg = 3` and battery level 60; the `+CIEV` event `2,4` then
reports battery `4 * 100 / 5 = 80` through the same formula. -/
theorem claim_C7_witness :
    rfcomm_handler_cind_resp_get_cb { demoConn with hfp_ind_map := [.call, .battchg] ++ List.replicate 18 .null } demoTransport
        ⟨.resp, "+CIND".data, "0,3".data⟩ =
      .ok ({ demoConn with hfp_ind_map := [.call, .battchg] ++ List.replicate 18 .null, state := stateMax demoConn.state HFP_SLC_CIND_GET },
        { demoTransport with hfp_inds := [0, 0, 0, 0, 0, 0, 0, 3], battery_level := 60 },
        [.dbusUpdate BA_DBUS_TRANSPORT_UPDATE_BATTERY]) ∧
    rfcomm_handler_ciev_resp_cb { demoConn with hfp_ind_map := [.call, .battchg] ++ List.replicate 18 .null } demoTransport
        ⟨.resp, "+CIEV".data, "2,4".data⟩ =
      .ok ({ demoConn with hfp_ind_map := [.call, .battchg] ++ List.replicate 18 .null },
        { demoTransport with hfp_inds := (List.replicate 8 0).set (indIdx .battchg) (4 % 256), battery_level := ((4 * 100) % 2 ^ 32 : Nat) / 5 },
        [.dbusUpdate BA_DBUS_TRANSPORT_UPDATE_BATTERY]) ∧
    ((4 * 100) % 2 ^ 32 : Nat) / 5 = 4 * 100 / 5 := by
  refine ⟨?_, ?_, ?_⟩
  · exact claim_C7_indicator_mapping.1
      { demoConn with hfp_ind_map := [.call, .battchg] ++ List.replicate 18 .null }
      demoTransport (List.replicate 18 .null) rfl rfl
  · exact claim_C7_indicator_mapping.2.1
      { demoConn with hfp_ind_map := [.call, .battchg] ++ List.replicate 18 .null }
      demoTransport ⟨.resp, "+CIEV".data, "2,4".data⟩ 2 4 (by decide) rfl
  · exact claim_C7_indicator_mapping.2.2 4 (by decide)

/-! ### State monotonicity (claim C4) -/

/-- `stateMax` never decreases the state. -/
theorem le_stateMax (s x : Nat) : s ≤ stateMax s x := by
  unfold stateMax
  split <;> omega

/-- Transfer a state bound through a `CResult.ok` equation. -/
theorem ok_state_le {c : RfcommConn}
    {X : RfcommConn × Transport × List OutEvent} {c' : RfcommConn}
    {t' : Transport} {o : List OutEvent}
    (h : (CResult.ok X : CbResult) = .ok (c', t', o))
    (hle : c.state ≤ X.1.state) : c.state ≤ c'.state := by
  have h1 : X = (c', t', o) := CResult.ok.inj h
  have h2 : X.1 = c' := by rw [h1]
  exact h2 ▸ hle

/-- `rfcomm_handler_resp_ok_cb` never decreases the state. -/
theorem resp_ok_cb_state_mono {c : RfcommConn} {t : Transport} {a : BtAt}
    {c' : RfcommConn} {t' : Transport} {o : List OutEvent}
    (h : rfcomm_handler_resp_ok_cb c t a = .ok (c', t', o)) :
    c.state ≤ c'.state := by
  unfold rfcomm_handler_resp_ok_cb at h
  split at h
  · exact ok_state_le h (Nat.le_succ _)
  · split at h
    · simp at h
    · exact ok_state_le h (Nat.le_refl _)

/-- Every handler callback never decreases the SLC state. -/
theorem runCallback_state_mono (cb : RfcommCb) {c : RfcommConn}
    {t : Transport} {a : BtAt} {c' : RfcommConn} {t' : Transport}
    {o : List OutEvent} (h : runCallback cb c t a = .ok (c', t', o)) :
    c.state ≤ c'.state := by
  cases cb with
  | resp_ok => exact resp_ok_cb_state_mono h
  | resp_bcs_ok =>
    simp only [runCallback] at h
    unfold rfcomm_handler_resp_bcs_ok_cb at h
    split at h
    · simp at h
    · rename_i c2 t2 outs heq
      exact ok_state_le h (resp_ok_cb_state_mono heq)
  | cind_test =>
    simp only [runCallback] at h
    unfold rfcomm_handler_cind_test_cb at h
    exact ok_state_le h (le_stateMax _ _)
  | cind_get =>
    simp only [runCallback] at h
    unfold rfcomm_handler_cind_get_cb at h
    exact ok_state_le h (le_stateMax _ _)
  | cind_resp_test =>
    simp only [runCallback] at h
    unfold rfcomm_handler_cind_resp_test_cb at h
    exact ok_state_le h (le_stateMax _ _)
  | cind_resp_get =>
    simp only [runCallback] at h
    unfold rfcomm_handler_cind_resp_get_cb at h
    exact ok_state_le h (le_stateMax _ _)
  | cmer_set =>
    simp only [runCallback] at h
    unfold rfcomm_handler_cmer_set_cb at h
    exact ok_state_le h (le_stateMax _ _)
  | ciev_resp =>
    simp only [runCallback] at h
    unfold rfcomm_handler_ciev_resp_cb at h
    split at h
    · exact ok_state_le h (Nat.le_refl _)
    · dsimp only at h
      split at h
      all_goals exact ok_state_le h (Nat.le_refl _)
  | bia_set =>
    simp only [runCallback] at h
    unfold rfcomm_handler_bia_set_cb at h
    exact ok_state_le h (Nat.le_refl _)
  | brsf_set =>
    simp only [runCallback] at h
    unfold rfcomm_handler_brsf_set_cb at h
    exact ok_state_le h (le_stateMax _ _)
  | brsf_resp =>
    simp only [runCallback] at h
    unfold rfcomm_handler_brsf_resp_cb at h
    exact ok_state_le h (le_stateMax _ _)
  | vgm_set =>
    simp only [runCallback] at h
    unfold rfcomm_handler_vgm_set_cb at h
    exact ok_state_le h (Nat.le_refl _)
  | vgs_set =>
    simp only [runCallback] at h
    unfold rfcomm_handler_vgs_set_cb at h
    exact ok_state_le h (Nat.le_refl _)
  | btrh_get =>
    simp only [runCallback] at h
    unfold rfcomm_handler_btrh_get_cb at h
    exact ok_state_le h (Nat.le_refl _)
  | bcs_set =>
    simp only [runCallback] at h
    unfold rfcomm_handler_bcs_set_cb at h
    split at h
    · exact ok_state_le h (Nat.le_refl _)
    · exact ok_state_le h (le_stateMax _ _)
  | bcs_resp =>
    simp only [runCallback] at h
    unfold rfcomm_handler_bcs_resp_cb at h
    exact ok_state_le h (le_stateMax _ _)
  | bac_set =>
    simp only [runCallback] at h
    unfold rfcomm_handler_bac_set_cb at h
    exact ok_state_le h (le_stateMax _ _)
  | iphoneaccev_set =>
    simp only [runCallback] at h
    unfold rfcomm_handler_iphoneaccev_set_cb at h
    exact ok_state_le h (Nat.le_refl _)
  | xapl_set =>
    simp only [runCallback] at h
    unfold rfcomm_handler_xapl_set_cb at h
    split at h
    · exact ok_state_le h (Nat.le_refl _)
    · exact ok_state_le h (Nat.le_refl _)

/-- `retriesOnEntry` never changes the state. -/
theorem retriesOnEntry_state (c : RfcommConn) :
    (retriesOnEntry c).state = c.state := by
  unfold retriesOnEntry
  split <;> rfl

/-- The SLC block never decreases the state. -/
theorem slcUpdate_state_mono {p : Profile} {c : RfcommConn} {t : Transport}
    {c' : RfcommConn} {t' : Transport} {outs : List OutEvent}
    {tmo : Option Nat} (h : slcUpdate p c t = .ok (c', t', outs, tmo)) :
    c.state ≤ c'.state := by
  unfold slcUpdate at h
  by_cases hconn : c.state = HFP_CONNECTED
  · rw [if_pos hconn] at h
    simp only [CResult.ok.injEq, Prod.mk.injEq] at h
    obtain ⟨h1, -⟩ := h
    subst h1
    exact Nat.le_refl _
  · rw [if_neg hconn] at h
    have hentry := retriesOnEntry_state c
    cases p with
    | hf =>
      dsimp only at h
      split at h
      · simp at h
      · cases hh : (hfSwitch (retriesOnEntry c) t).1.handler with
        | some hnd =>
          simp only [hh] at h
          simp only [CResult.ok.injEq, Prod.mk.injEq] at h
          obtain ⟨h1, -⟩ := h
          subst h1
          calc c.state = (retriesOnEntry c).state := hentry.symm
            _ ≤ (hfSwitch (retriesOnEntry c) t).1.state :=
              hfSwitch_state_mono _ t
        | none =>
          simp only [hh] at h
          simp only [CResult.ok.injEq, Prod.mk.injEq] at h
          obtain ⟨h1, -⟩ := h
          subst h1
          calc c.state = (retriesOnEntry c).state := hentry.symm
            _ ≤ (hfSwitch (retriesOnEntry c) t).1.state :=
              hfSwitch_state_mono _ t
    | ag =>
      dsimp only at h
      split at h
      · simp at h
      · cases hh : (agSwitch (retriesOnEntry c) t).1.handler with
        | some hnd =>
          simp only [hh] at h
          simp only [CResult.ok.injEq, Prod.mk.injEq] at h
          obtain ⟨h1, -⟩ := h
          subst h1
          calc c.state = (retriesOnEntry c).state := hentry.symm
            _ ≤ (agSwitch (retriesOnEntry c) t).1.state :=
              agSwitch_state_mono _ t
        | none =>
          simp only [hh] at h
          simp only [CResult.ok.injEq, Prod.mk.injEq] at h
          obtain ⟨h1, -⟩ := h
          subst h1
          calc c.state = (retriesOnEntry c).state := hentry.symm
            _ ≤ (agSwitch (retriesOnEntry c) t).1.state :=
              agSwitch_state_mono _ t

/-- Dispatch resolution never changes the state. -/
theorem dispatchCallback_state (c : RfcommConn) (a : BtAt) :
    (dispatchCallback c a).2.2.state = c.state := by
  unfold dispatchCallback
  split
  · split <;> rfl
  · rfl

/-- The message-processing arm never decreases the state. -/
theorem processMessage_state_mono {extFd : Bool} {c : RfcommConn}
    {t : Transport} {a : BtAt} {c' : RfcommConn} {t' : Transport}
    {o : List OutEvent} (h : processMessage extFd c t a = .ok (c', t', o)) :
    c.state ≤ c'.state := by
  unfold processMessage at h
  dsimp only at h
  have hdisp := dispatchCallback_state c a
  cases hcb : (dispatchCallback c a).1 with
  | some cb =>
    simp only [hcb] at h
    cases heq : runCallback cb (dispatchCallback c a).2.2 t a with
    | err e =>
      simp only [heq] at h
      simp at h
    | ok r =>
      obtain ⟨c2, t2, outs⟩ := r
      simp only [heq] at h
      simp only [CResult.ok.injEq, Prod.mk.injEq] at h
      obtain ⟨h1, -⟩ := h
      subst h1
      calc c.state = (dispatchCallback c a).2.2.state := hdisp.symm
        _ ≤ c2.state := runCallback_state_mono cb heq
  | none =>
    simp only [hcb] at h
    split at h
    · simp only [CResult.ok.injEq, Prod.mk.injEq] at h
      obtain ⟨h1, -⟩ := h
      subst h1
      exact hdisp.symm.le
    · simp only [CResult.ok.injEq, Prod.mk.injEq] at h
      obtain ⟨h1, -⟩ := h
      subst h1
      exact hdisp.symm.le

/-- A full event-loop iteration with an incoming message never decreases the
state. -/
theorem rfcommIterMsg_state_mono {p : Profile} {extFd : Bool}
    {c : RfcommConn} {t : Transport} {a : BtAt} {c' : RfcommConn}
    {t' : Transport} {o : List OutEvent}
    (h : rfcommIterMsg p extFd c t a = .ok (c', t', o)) :
    c.state ≤ c'.state := by
  unfold rfcommIterMsg at h
  split at h
  · simp at h
  · rename_i c1 t1 outs1 tmo1 hslc
    split at h
    · simp at h
    · rename_i c2 t2 outs2 hmsg
      simp only [CResult.ok.injEq, Prod.mk.injEq] at h
      obtain ⟨h1, -⟩ := h
      subst h1
      calc c.state ≤ c1.state := slcUpdate_state_mono hslc
        _ ≤ c2.state := processMessage_state_mono hmsg

/-! ### Claim C4 -/

/-- The bare `OK` response message. -/
def okResp : BtAt := ⟨.resp, [], "OK".data⟩

/-- The connection state of an HF session waiting for the `OK` of `AT+CMER`:
in `CIND_GET_OK` with the generic OK/ERROR expectation installed. -/
def cmerWaitConn : RfcommConn :=
  { demoConn with state := HFP_SLC_CIND_GET_OK, state_prev := HFP_SLC_CIND_GET_OK, retries := 1, handler := some rfcomm_handler_resp_ok }

/-- The connection state right after the first `OK` advanced it to
`CMER_SET_OK` (the expectation already consumed). -/
def cmerOkConn : RfcommConn :=
  { demoConn with state := HFP_SLC_CMER_SET_OK, state_prev := HFP_SLC_CIND_GET_OK, retries := 2 }

/-- The connection state after the auto-advance to `CONNECTED`. -/
def connectedConn : RfcommConn :=
  { demoConn with state := HFP_CONNECTED, state_prev := HFP_SLC_CMER_SET_OK, retries := 0 }

/-- C4: the SLC state never decreases --- across any handler execution (first
conjunct), any SLC block run (second conjunct), and any full event-loop
iteration with an incoming message (third conjunct).  Replaying an
already-satisfied step's response is a no-op: in the HF session without codec
negotiation, the iteration delivering the first `OK` for `AT+CMER` advances
the state once (fourth conjunct); the next iteration auto-advances to
`CONNECTED` and fires the sampling/codec CONNECTED notification exactly once,
while the second `OK` delivered in that same iteration resolves no handler and
changes nothing (fifth and sixth conjuncts); any further delivery of the same
`OK` leaves the state and outputs empty --- no double-advance and no second
notification (seventh conjunct). -/
theorem claim_C4_state_monotone_and_replay :
    (∀ (cb : RfcommCb) (c : RfcommConn) (t : Transport) (a : BtAt)
        (c' : RfcommConn) (t' : Transport) (o : List OutEvent),
      runCallback cb c t a = .ok (c', t', o) → c.state ≤ c'.state) ∧
    (∀ (p : Profile) (c : RfcommConn) (t : Transport) (c' : RfcommConn)
        (t' : Transport) (outs : List OutEvent) (tmo : Option Nat),
      slcUpdate p c t = .ok (c', t', outs, tmo) → c.state ≤ c'.state) ∧
    (∀ (p : Profile) (extFd : Bool) (c : RfcommConn) (t : Transport)
        (a : BtAt) (c' : RfcommConn) (t' : Transport) (o : List OutEvent),
      rfcommIterMsg p extFd c t a = .ok (c', t', o) → c.state ≤ c'.state) ∧
    rfcommIterMsg .hf false cmerWaitConn demoTransport okResp =
      .ok (cmerOkConn, demoTransport,
        [.write .cmd_set (some "+CMER".data) (some "3,0,0,1,0".data)]) ∧
    slcUpdate .hf cmerOkConn demoTransport =
      .ok (connectedConn, demoTransport, connectedUpdateEvents, none) ∧
    processMessage false connectedConn demoTransport okResp =
      .ok (connectedConn, demoTransport, []) ∧
    rfcommIterMsg .hf false connectedConn demoTransport okResp =
      .ok (connectedConn, demoTransport, []) := by
  refine ⟨?_, ?_, ?_, by decide, by decide, by decide, by decide⟩
  · intro cb c t a c' t' o h
    exact runCallback_state_mono cb h
  · intro p c t c' t' outs tmo h
    exact slcUpdate_state_mono h
  · intro p extFd c t a c' t' o h
    exact rfcommIterMsg_state_mono h

/-- C4 (witness): the monotonicity conjuncts applied at the concrete replay
scenario: the iteration that consumes the first `OK` goes from `CIND_GET_OK`
to `CMER_SET_OK`, and the follow-up iterations never decrease the state. -/
theorem claim_C4_witness :
    cmerWaitConn.state ≤ cmerOkConn.state ∧
    cmerOkConn.state ≤ connectedConn.state ∧
    connectedConn.state ≤ connectedConn.state :=
  ⟨claim_C4_state_monotone_and_replay.2.2.1 .hf false cmerWaitConn
      demoTransport okResp cmerOkConn demoTransport
      [.write .cmd_set (some "+CMER".data) (some "3,0,0,1,0".data)]
      (by decide),
   claim_C4_state_monotone_and_replay.2.1 .hf cmerOkConn demoTransport
      connectedConn demoTransport connectedUpdateEvents none (by decide),
   claim_C4_state_monotone_and_replay.2.2.1 .hf false connectedConn
      demoTransport okResp connectedConn demoTransport [] (by decide)⟩

end Rfcomm
